import Mathlib

/-!
Verification of the ReStoreX recovery engine
(`backend/app/services/python_recovery_service.py`) against its
natural-language specification.  Byte strings are modelled as `List Nat`,
Python string/bytes operations (`find`, slicing, `count`, `endswith`,
`int.from_bytes`) are given faithful executable counterparts, and each
service routine relevant to the claims is embedded as a pure Lean
function over an explicit device model.
-/

set_option maxRecDepth 10000

/-! ## Python byte-string primitives -/

/-- Tail-recursive list length (`List.length` recurses non-tail and
overflows the evaluator stack on long byte lists). -/
def pyLen (l : List Nat) (acc : Nat := 0) : Nat :=
  match l with
  | [] => acc
  | _ :: t => pyLen t (acc + 1)

/-- Python `s.startswith(pre)`: `bytesPrefix pre s`. -/
def bytesPrefix : List Nat → List Nat → Bool
  | [], _ => true
  | _ :: _, [] => false
  | a :: as, b :: bs => a == b && bytesPrefix as bs

/-- Tail-recursive worker for substring search: index of the first
occurrence of `sub` in `s`, counting from `i`. -/
def findSubAux (sub : List Nat) : List Nat → Nat → Option Nat
  | [], i => if bytesPrefix sub [] then some i else none
  | s@(_ :: t), i =>
    if bytesPrefix sub s then some i else findSubAux sub t (i + 1)

/-- First index (from 0) at which `sub` occurs in `s`, if any. -/
def findSub (sub s : List Nat) : Option Nat := findSubAux sub s 0

/-- Python `sub in s` on bytes. -/
def pyContains (s sub : List Nat) : Bool := (findSub sub s).isSome

/-- Python slice `s[a:b]` for non-negative bounds. -/
def pySlice (s : List Nat) (a b : Nat) : List Nat := (s.drop a).take (b - a)

/-- Python slice `s[-k:]` (the trailing `k` bytes, or all of `s` if shorter). -/
def pyTail (s : List Nat) (k : Nat) : List Nat := s.drop (pyLen s - k)

/-- Normalize a possibly negative Python slice end index against a length. -/
def pyNormEnd (len : Nat) (e : Int) : Nat :=
  if e < 0 then (max (e + len) 0).toNat else min e.toNat len

/-- Python `s.find(sub, start, stop)`: lowest index of `sub` inside
`s[start:stop]`, with Python's negative-index normalization of `stop`. -/
def pyFind (s sub : List Nat) (start : Nat) (stop : Int) : Option Nat :=
  let n := pyLen s
  let e := pyNormEnd n stop
  let st := min start n
  findSubAux sub (pySlice s st e) st

/-- Python `s.find(sub, start)` (no explicit end). -/
def pyFindFrom (s sub : List Nat) (start : Nat) : Option Nat :=
  pyFind s sub start (pyLen s : Int)

/-- Tail-recursive worker for Python `s.count(sub)`: `skip` counts the
positions still to pass over after a match (so matches never overlap). -/
def pyCountAux (sub : List Nat) : List Nat → Nat → Nat → Nat
  | [], _, acc => acc
  | s@(_ :: t), skip, acc =>
    match skip with
    | n + 1 => pyCountAux sub t n acc
    | 0 =>
      if bytesPrefix sub s then pyCountAux sub t (sub.length - 1) (acc + 1)
      else pyCountAux sub t 0 acc

/-- Python `s.count(sub)`: non-overlapping occurrence count. -/
def pyCount (sub s : List Nat) : Nat := pyCountAux sub s 0 0

/-- Python `s.endswith(suf)`. -/
def pyEndsWith (s suf : List Nat) : Bool :=
  bytesPrefix suf (s.drop (pyLen s - suf.length))

/-- Python `int.from_bytes(l, 'little')`. -/
def leNat (l : List Nat) : Nat := l.foldr (fun b acc => b + 256 * acc) 0

/-- Python `int.from_bytes(l, 'big')`. -/
def beNat (l : List Nat) : Nat := l.foldl (fun acc b => acc * 256 + b) 0

/-- Python `int.from_bytes(l, 'little', signed=True)` (two's complement). -/
def leIntSigned (l : List Nat) : Int :=
  let v := leNat l
  if 2 * v < 256 ^ l.length then (v : Int) else (v : Int) - ((256 ^ l.length : Nat) : Int)

/-- Reading `n` bytes at absolute offset `off` from a device; short or empty
reads at end-of-device are modelled by `drop`/`take`. -/
def readAt (dev : List Nat) (off n : Nat) : List Nat := (dev.drop off).take n

/-- Distance between two naturals (`abs(a - b)` on Python ints). -/
def natDist (a b : Nat) : Nat := max a b - min a b

/-! ## Signature registry (`FileSignature.SIGNATURES`) -/

/-- One entry of the signature registry: header/footer/check byte patterns,
the `offset` field (e.g. ISO at 32769) and the `important` flag. -/
structure SigInfo where
  header : Option (List Nat)
  footer : Option (List Nat)
  extension : String
  check : Option (List Nat) := none
  sigOffset : Nat := 0
  important : Bool := true
deriving Repr, DecidableEq

/-- Registry entry `'jpg'`. -/
def jpgSig : SigInfo := { header := some [0xFF, 0xD8, 0xFF], footer := some [0xFF, 0xD9], extension := "jpg" }

/-- Registry entry `'png'`. -/
def pngSig : SigInfo :=
  { header := some [0x89, 0x50, 0x4E, 0x47, 0x0D, 0x0A, 0x1A, 0x0A],
    footer := some [0x49, 0x45, 0x4E, 0x44, 0xAE, 0x42, 0x60, 0x82], extension := "png" }

/-- Registry entry `'pdf'`. -/
def pdfSig : SigInfo :=
  { header := some [0x25, 0x50, 0x44, 0x46, 0x2D], footer := some [0x25, 0x25, 0x45, 0x4F, 0x46],
    extension := "pdf" }

/-- Registry entry `'zip'`. -/
def zipSig : SigInfo :=
  { header := some [0x50, 0x4B, 0x03, 0x04], footer := some [0x50, 0x4B, 0x05, 0x06], extension := "zip" }

/-- Registry entry `'docx'`. -/
def docxSig : SigInfo :=
  { header := some [0x50, 0x4B, 0x03, 0x04], footer := none, extension := "docx",
    check := some [0x77, 0x6F, 0x72, 0x64, 0x2F] }

/-- Registry entry `'wav'`. -/
def wavSig : SigInfo :=
  { header := some [0x52, 0x49, 0x46, 0x46], footer := none, extension := "wav",
    check := some [0x57, 0x41, 0x56, 0x45] }

/-- Registry entry `'mp3'`. -/
def mp3Sig : SigInfo := { header := some [0xFF, 0xFB], footer := none, extension := "mp3" }

/-- Registry entry `'iso'` (the only one with a nonzero `offset`). -/
def isoSig : SigInfo :=
  { header := some [0x43, 0x44, 0x30, 0x30, 0x31], footer := none, extension := "iso",
    sigOffset := 32769, important := false }

/-! ## Validator (`_validate_file`, `_validate_file_with_score`) -/

/-- Named byte constants used by the validator. -/
def jfifBytes : List Nat := [0x4A, 0x46, 0x49, 0x46]

/-- The ASCII bytes of `Exif`. -/
def exifBytes : List Nat := [0x45, 0x78, 0x69, 0x66]

/-- The PNG `IEND` trailer `IEND\xae\x42\x60\x82`. -/
def iendBytes : List Nat := [0x49, 0x45, 0x4E, 0x44, 0xAE, 0x42, 0x60, 0x82]

/-- The ZIP end-of-central-directory magic `PK\x05\x06`. -/
def eocdBytes : List Nat := [0x50, 0x4B, 0x05, 0x06]

/-- The ASCII bytes of `%%EOF`. -/
def pdfEofBytes : List Nat := [0x25, 0x25, 0x45, 0x4F, 0x46]

/-- Strict per-format validation, the translation of `_validate_file`.
Formats not listed in the source fall through to `True`. -/
def validateFile (d : List Nat) (sig : SigInfo) : Bool :=
  if pyLen d < 512 then false
  else
    let headerOk := match sig.header with
      | some h => bytesPrefix h d
      | none => true
    if headerOk = false then false
    else
      let ext := sig.extension
      if ext = "jpg" ∨ ext = "jpeg" then
        bytesPrefix [0xFF, 0xD8, 0xFF] d &&
        (pyEndsWith d [0xFF, 0xD9] || pyContains (pyTail d 10) [0xFF, 0xD9]) &&
        decide (10 ≤ pyCount [0xFF] d) &&
        (pyContains (pySlice d 0 50) jfifBytes || pyContains (pySlice d 0 50) exifBytes) &&
        decide (2048 ≤ pyLen d)
      else if ext = "png" then
        bytesPrefix [0x89, 0x50, 0x4E, 0x47, 0x0D, 0x0A, 0x1A, 0x0A] d &&
        pyContains (pySlice d 8 25) [0x49, 0x48, 0x44, 0x52] &&
        (pyEndsWith d iendBytes || pyContains (pyTail d 50) iendBytes) &&
        pyContains d [0x49, 0x44, 0x41, 0x54] &&
        decide (50 ≤ pyLen d)
      else if ext = "pdf" then
        bytesPrefix [0x25, 0x50, 0x44, 0x46, 0x2D] d &&
        pyContains (pyTail d 100) pdfEofBytes &&
        pyContains d [0x2F, 0x43, 0x61, 0x74, 0x61, 0x6C, 0x6F, 0x67] &&
        pyContains d [0x2F, 0x50, 0x61, 0x67, 0x65] &&
        (pyContains d [0x78, 0x72, 0x65, 0x66] || pyContains d [0x2F, 0x58, 0x52, 0x65, 0x66]) &&
        decide (2 ≤ pyCount [0x6F, 0x62, 0x6A] d)
      else if ext = "docx" ∨ ext = "xlsx" ∨ ext = "pptx" then
        bytesPrefix [0x50, 0x4B, 0x03, 0x04] d &&
        pyContains (pyTail d 1000) eocdBytes &&
        pyContains d [0x50, 0x4B, 0x01, 0x02] &&
        (if ext = "docx" then
           pyContains (pySlice d 0 5000) [0x77, 0x6F, 0x72, 0x64, 0x2F] &&
           pyContains (pySlice d 0 10000)
             [0x64, 0x6F, 0x63, 0x75, 0x6D, 0x65, 0x6E, 0x74, 0x2E, 0x78, 0x6D, 0x6C]
         else if ext = "xlsx" then
           pyContains (pySlice d 0 5000) [0x78, 0x6C, 0x2F] &&
           pyContains (pySlice d 0 10000)
             [0x77, 0x6F, 0x72, 0x6B, 0x62, 0x6F, 0x6F, 0x6B, 0x2E, 0x78, 0x6D, 0x6C]
         else
           pyContains (pySlice d 0 5000) [0x70, 0x70, 0x74, 0x2F] &&
           pyContains (pySlice d 0 10000)
             [0x70, 0x72, 0x65, 0x73, 0x65, 0x6E, 0x74, 0x61, 0x74, 0x69, 0x6F, 0x6E, 0x2E,
              0x78, 0x6D, 0x6C]) &&
        pyContains (pySlice d 0 5000)
          [0x5B, 0x43, 0x6F, 0x6E, 0x74, 0x65, 0x6E, 0x74, 0x5F, 0x54, 0x79, 0x70, 0x65, 0x73,
           0x5D, 0x2E, 0x78, 0x6D, 0x6C]
      else if ext = "zip" then
        bytesPrefix [0x50, 0x4B, 0x03, 0x04] d &&
        pyContains (pyTail d 1000) eocdBytes &&
        pyContains d [0x50, 0x4B, 0x01, 0x02] &&
        decide (100 ≤ pyLen d)
      else if ext = "rar" then
        bytesPrefix [0x52, 0x61, 0x72, 0x21, 0x1A, 0x07] d &&
        decide (1 ≤ pyCount [0x74] d) &&
        decide (100 ≤ pyLen d)
      else if ext = "mp3" then
        (if bytesPrefix [0x49, 0x44, 0x33] d then
           decide (10 ≤ pyLen d) &&
           (let tagSize :=
              ((d.getD 6 0) % 128) * 2097152 + ((d.getD 7 0) % 128) * 16384 +
                ((d.getD 8 0) % 128) * 128 + (d.getD 9 0) % 128
            let audioStart := 10 + tagSize
            decide (audioStart < pyLen d) &&
            decide (100 ≤ pyCount [0xFF, 0xFB] (d.drop audioStart)))
         else decide (100 ≤ pyCount [0xFF, 0xFB] d)) &&
        decide (32768 ≤ pyLen d)
      else if ext = "wav" then
        bytesPrefix [0x52, 0x49, 0x46, 0x46] d &&
        pyContains (pySlice d 8 12) [0x57, 0x41, 0x56, 0x45] &&
        pyContains (pySlice d 12 100) [0x66, 0x6D, 0x74, 0x20] &&
        pyContains (pySlice d 0 1000) [0x64, 0x61, 0x74, 0x61] &&
        decide (44 ≤ pyLen d) &&
        decide (36 ≤ leNat (pySlice d 4 8))
      else if ext = "mp4" ∨ ext = "mov" then
        pyContains (pySlice d 0 32) [0x66, 0x74, 0x79, 0x70] &&
        pyContains d [0x6D, 0x6F, 0x6F, 0x76] &&
        (pyContains (pySlice d 0 50000) [0x6D, 0x64, 0x61, 0x74] ||
         pyContains (pySlice d 0 50000) [0x73, 0x6B, 0x69, 0x70]) &&
        (pyContains (pySlice d 0 32) [0x6D, 0x70, 0x34, 0x31] ||
         pyContains (pySlice d 0 32) [0x6D, 0x70, 0x34, 0x32] ||
         pyContains (pySlice d 0 32) [0x69, 0x73, 0x6F, 0x6D] ||
         pyContains (pySlice d 0 32) [0x71, 0x74, 0x20, 0x20] ||
         pyContains (pySlice d 0 32) [0x4D, 0x34, 0x56, 0x20] ||
         pyContains (pySlice d 0 32) [0x4D, 0x34, 0x41, 0x20])
      else if ext = "avi" then
        bytesPrefix [0x52, 0x49, 0x46, 0x46] d &&
        pyContains (pySlice d 8 12) [0x41, 0x56, 0x49, 0x20] &&
        pyContains (pySlice d 0 1000) [0x68, 0x64, 0x72, 0x6C] &&
        pyContains (pySlice d 0 10000) [0x6D, 0x6F, 0x76, 0x69] &&
        decide (1024 ≤ pyLen d)
      else if ext = "sqlite" then
        bytesPrefix
          [0x53, 0x51, 0x4C, 0x69, 0x74, 0x65, 0x20, 0x66, 0x6F, 0x72, 0x6D, 0x61, 0x74, 0x20,
           0x33, 0x00] d &&
        (let pageSize := beNat (pySlice d 16 18)
         decide (512 ≤ pageSize) && decide (pageSize ≤ 65536) &&
         decide (Nat.land pageSize (pageSize - 1) = 0) &&
         decide (pageSize ≤ pyLen d) &&
         pyContains (pySlice d 0 (pageSize * 2))
           [0x73, 0x71, 0x6C, 0x69, 0x74, 0x65, 0x5F, 0x6D, 0x61, 0x73, 0x74, 0x65, 0x72])
      else true

/-- Result of `_validate_file_with_score`. -/
structure ValResult where
  is_valid : Bool
  score : Int
  isPart : Bool
deriving Repr, DecidableEq

/-- Translation of `_validate_file_with_score` with the optional Pillow and
python-magic validators unavailable (`PILLOW_AVAILABLE = MAGIC_AVAILABLE =
False`), so only the deterministic scoring path is active. -/
def validateFileWithScore (d : List Nat) (sig : SigInfo) : ValResult :=
  if pyLen d < 512 then ⟨false, 0, false⟩
  else if validateFile d sig = false then ⟨false, 0, false⟩
  else
    let score0 : Int := 50
    let footerStep : Int × Bool :=
      match sig.footer with
      | some f =>
        if pyEndsWith d f || pyContains (pyTail d 100) f then (score0 + 30, false)
        else (score0 + 10, true)
      | none => (score0 + 30, false)
    let score1 := footerStep.1
    let partial1 := footerStep.2
    let ext := sig.extension
    let extStep : Int × Bool :=
      if ext = "jpg" ∨ ext = "jpeg" then
        if pyEndsWith d [0xFF, 0xD9] || pyContains (pyTail d 10) [0xFF, 0xD9] then
          (score1 + 20, partial1)
        else (score1 - 10, true)
      else if ext = "png" then
        if pyEndsWith d iendBytes then (score1 + 20, partial1) else (score1 - 10, true)
      else if ext = "pdf" then
        if pyContains (pyTail d 100) pdfEofBytes then (score1 + 20, partial1)
        else (score1 - 10, true)
      else if ext = "docx" ∨ ext = "xlsx" ∨ ext = "pptx" ∨ ext = "zip" then
        if pyContains (pyTail d 1000) eocdBytes then (score1 + 20, partial1)
        else (score1 - 10, true)
      else if ext = "mp4" ∨ ext = "mov" ∨ ext = "avi" ∨ ext = "wav" then
        if 100000 < pyLen d then (score1 + 20, partial1) else (score1 + 10, partial1)
      else if ext = "mp3" then
        let fc := pyCount [0xFF, 0xFB] d
        if 1000 < fc then (score1 + 20, partial1)
        else if 500 < fc then (score1 + 15, partial1)
        else (score1 + 10, partial1)
      else (score1, partial1)
    let clamped := max 0 (min 100 extStep.1)
    ⟨true, clamped, extStep.2⟩

/-! ## Carver extraction (`_extract_file`) -/

/-- The PNG `IEND` chunk searched for by `_extract_file`
(`\x00\x00\x00\x00IEND\xae\x42\x60\x82`). -/
def iendChunkBytes : List Nat := [0, 0, 0, 0, 0x49, 0x45, 0x4E, 0x44, 0xAE, 0x42, 0x60, 0x82]

/-- Translation of `_extract_file`: cut a candidate out of the streaming
buffer, either up to the signature footer, up to a format-specific
terminator, or up to a conservative per-format size cap.  The function is
pure: the source never touches `drive_handle` or `max_file_size` here. -/
def extractFile (buffer : List Nat) (startPos : Nat) (sig : SigInfo) : Option (List Nat) :=
  match sig.footer with
  | some f =>
    match pyFindFrom buffer f (startPos + (sig.header.getD []).length) with
    | some e => some (pySlice buffer startPos (e + f.length))
    | none => none
  | none =>
    let ext := sig.extension
    if ext = "jpg" ∨ ext = "jpeg" then
      match pyFindFrom buffer [0xFF, 0xD9] (startPos + 2) with
      | some e => some (pySlice buffer startPos (e + 2))
      | none => none
    else if ext = "png" then
      match pyFindFrom buffer iendChunkBytes (startPos + 8) with
      | some e => some (pySlice buffer startPos (e + 12))
      | none => none
    else if ext = "mp3" then some (pySlice buffer startPos (min (startPos + 5242880) (pyLen buffer)))
    else if ext = "wav" then some (pySlice buffer startPos (min (startPos + 5242880) (pyLen buffer)))
    else if ext = "mp4" ∨ ext = "mov" then
      some (pySlice buffer startPos (min (startPos + 10485760) (pyLen buffer)))
    else if ext = "avi" then
      some (pySlice buffer startPos (min (startPos + 10485760) (pyLen buffer)))
    else if ext = "docx" ∨ ext = "xlsx" ∨ ext = "pptx" ∨ ext = "zip" then
      match pyFindFrom buffer eocdBytes (startPos + 100) with
      | some e => some (pySlice buffer startPos (e + 22))
      | none => none
    else if ext = "txt" then some (pySlice buffer startPos (min (startPos + 524288) (pyLen buffer)))
    else if ext = "pdf" then
      match pyFindFrom buffer pdfEofBytes (startPos + 10) with
      | some e => some (pySlice buffer startPos (e + 5))
      | none => none
    else if ext = "rar" then some (pySlice buffer startPos (min (startPos + 5242880) (pyLen buffer)))
    else if ext = "sqlite" ∨ ext = "db" ∨ ext = "sqlite3" then
      some (pySlice buffer startPos (min (startPos + 5242880) (pyLen buffer)))
    else if ext = "csv" then some (pySlice buffer startPos (min (startPos + 1048576) (pyLen buffer)))
    else some (pySlice buffer startPos (min (startPos + 1048576) (pyLen buffer)))

/-! ## Carver pipeline (`_carve_files`) -/

/-- One emitted carver record.  Field names follow the dictionary built in
`_carve_files`; `dataBytes` and `sig` additionally carry the carved payload
and its registry entry (which the source keeps as `file_data` in scope and
as the `signature` key) so theorems can speak about them.  `isPart` models
the `is_partial` key. -/
structure CarvedRecord where
  offset : Nat
  size : Nat
  extension : String
  md5 : List Nat
  sha256 : List Nat
  validationScore : Int
  isPart : Bool
  method : String
  status : String
  dataBytes : List Nat
  sig : SigInfo
deriving Repr, DecidableEq

/-- Mutable state of the `_carve_files` loop: the cross-chunk overlap
buffer with its absolute device offset, the dedup sets, the counters, and
the accepted records. -/
structure CarveState where
  buffer : List Nat := []
  offset : Nat := 0
  fileCounter : Nat := 0
  foundHashes : List (List Nat) := []
  foundOffsets : List Nat := []
  skippedCorrupted : Nat := 0
  totalRecoveredSize : Nat := 0
  recoveredFiles : List CarvedRecord := []
  chunksRead : Nat := 0
deriving Repr, DecidableEq

/-- The record built for an accepted candidate (the two dictionary shapes
of `_carve_files`, deep-scan index mode vs. write mode). -/
def mkCarvedRecord (deep : Bool) (absolutePos : Nat) (data : List Nat) (sig : SigInfo)
    (score : Int) (isPart : Bool) (md5 sha : List Nat) : CarvedRecord :=
  { offset := absolutePos, size := pyLen data, extension := sig.extension,
    md5 := md5, sha256 := sha, validationScore := score, isPart := isPart,
    method := if deep then "deep_scan_index" else "signature_carving",
    status := if deep then "indexed" else "recovered",
    dataBytes := data, sig := sig }

/-- The inner `while True` signature-search loop of `_carve_files` for one
signature over the current buffer.  `fuel` dominates the number of
iterations (each iteration advances `search_start` by at least one, and
hit positions are bounded by the buffer length).  The cap `break` of the
source leaves exactly this loop, which is why the state bookkeeping of the
breaching candidate survives while the record is not appended. -/
def innerLoop (deep : Bool) (cap : Nat) (md5Fn shaFn : List Nat → List Nat) (sig : SigInfo)
    (header : List Nat) : Nat → Nat → CarveState → CarveState
  | 0, _, st => st
  | fuel + 1, searchStart, st =>
    match pyFind st.buffer header searchStart ((pyLen st.buffer : Int) - 100000) with
    | none => st
    | some pos =>
      let absolutePos := st.offset + pos
      if st.foundOffsets.any (fun fo => natDist absolutePos fo < 512) then
        innerLoop deep cap md5Fn shaFn sig header fuel (pos + 1) st
      else if 0 < sig.sigOffset ∧ pos < sig.sigOffset then
        innerLoop deep cap md5Fn shaFn sig header fuel (pos + 1) st
      else
        let actualPos := if 0 < sig.sigOffset then pos - sig.sigOffset else pos
        let checkOk := match sig.check with
          | some c => pyContains (pySlice st.buffer actualPos (actualPos + 1000)) c
          | none => true
        if checkOk = false then innerLoop deep cap md5Fn shaFn sig header fuel (pos + 1) st
        else
          match extractFile st.buffer actualPos sig with
          | none => innerLoop deep cap md5Fn shaFn sig header fuel (pos + 1) st
          | some data =>
            if pyLen data < 4096 then innerLoop deep cap md5Fn shaFn sig header fuel (pos + 1) st
            else
              let v := validateFileWithScore data sig
              if v.is_valid = false then
                innerLoop deep cap md5Fn shaFn sig header fuel (pos + 1)
                  { st with skippedCorrupted := st.skippedCorrupted + 1 }
              else if v.score < 70 then
                innerLoop deep cap md5Fn shaFn sig header fuel (pos + 1)
                  { st with skippedCorrupted := st.skippedCorrupted + 1 }
              else
                let md5 := md5Fn data
                if md5 ∈ st.foundHashes then
                  innerLoop deep cap md5Fn shaFn sig header fuel (pos + 1) st
                else
                  let sha := shaFn data
                  let st1 : CarveState :=
                    { st with fileCounter := st.fileCounter + 1,
                              foundHashes := md5 :: st.foundHashes,
                              foundOffsets := absolutePos :: st.foundOffsets,
                              totalRecoveredSize := st.totalRecoveredSize + pyLen data }
                  if deep = false ∧ cap < st1.totalRecoveredSize then st1
                  else
                    innerLoop deep cap md5Fn shaFn sig header fuel (pos + 1)
                      { st1 with recoveredFiles :=
                          st1.recoveredFiles ++
                            [mkCarvedRecord deep absolutePos data sig v.score v.isPart md5 sha] }

/-- One signature's turn in the `for signature in signatures` loop of
`_carve_files`: run the inner search loop when the signature has a header
(headerless signatures are filtered out before the chunk loop). -/
def sigStep (deep : Bool) (cap : Nat) (md5Fn shaFn : List Nat → List Nat)
    (s : CarveState) (sig : SigInfo) : CarveState :=
  match sig.header with
  | some h => innerLoop deep cap md5Fn shaFn sig h (pyLen s.buffer + 1) 0 s
  | none => s

/-- One iteration of the chunk-streaming loop of `_carve_files`: append the
chunk to the overlap buffer, run every signature loop, then retain the
trailing 100 KiB of the buffer. -/
def processChunk (deep : Bool) (cap : Nat) (md5Fn shaFn : List Nat → List Nat)
    (sigs : List SigInfo) (st : CarveState) (chunk : List Nat) : CarveState :=
  let st1 : CarveState :=
    { st with buffer := st.buffer ++ chunk, chunksRead := st.chunksRead + 1 }
  let st2 := sigs.foldl (sigStep deep cap md5Fn shaFn) st1
  let n := pyLen st2.buffer
  if 100000 < n then
    { st2 with offset := st2.offset + (n - 100000), buffer := pyTail st2.buffer 100000 }
  else st2

/-- Translation of `_carve_files`: signatures without a header are filtered
out, the safety cap is `min(2 * device_size, 20 GiB)` and applies only in
non-index (`scan_type != 'deep'`) mode, and the device is streamed
chunk-by-chunk (the chunk list abstracts the successive `read` results
until the terminating empty read).  MD5/SHA-256 are abstract parameters. -/
def carveFiles (deep : Bool) (deviceSize : Nat) (md5Fn shaFn : List Nat → List Nat)
    (sigs : List SigInfo) (chunks : List (List Nat)) : CarveState :=
  let cap := min (2 * deviceSize) 21474836480
  let sigsF := sigs.filter (fun s => s.header.isSome)
  chunks.foldl (processChunk deep cap md5Fn shaFn sigsF) {}

/-! ## On-demand extractor (`recover_selected_files`) -/

/-- Input dictionary of one selected file, as read back from the scan
index (`drive_path` / `offset` / `size` / `sha256` / `name` / `type`).
An absent or empty stored hash is modelled by `sha256 = []`. -/
structure RecInfo where
  drivePath : String
  offset : Nat
  size : Nat
  sha256 : List Nat
  name : String
  typeStr : String
  method : String
deriving Repr, DecidableEq

/-- One row of `recovery_results`. -/
structure RecEntry where
  filename : String
  status : String
  reason : String := ""
  path : String := ""
deriving Repr, DecidableEq

/-- Filesystem side effects performed by the extractor, in order. -/
inductive FsOp
  | makeDir (path : String)
  | writeFile (path : String) (data : List Nat)
  | renameFile (src dst : String)
deriving Repr, DecidableEq

/-- Whether an `FsOp` is a rename. -/
def FsOp.isRename : FsOp → Bool
  | .renameFile _ _ => true
  | _ => false

/-- The bytes `recover_selected_files` re-reads for a record: the
sector-aligned read at `offset` followed by the adjustment slice. -/
def extractorReadBytes (dev : List Nat) (offset size : Nat) : List Nat :=
  let alignedOffset := offset / 512 * 512
  let adjust := offset - alignedOffset
  let alignedReadSize := (adjust + size + 511) / 512 * 512
  pySlice (readAt dev alignedOffset alignedReadSize) adjust (adjust + size)

/-- Per-record body of `recover_selected_files`: validate the drive path,
open the device, do the sector-aligned re-read, compare SHA-256, resolve
the output path and write.  `devices` models `_open_drive` (`none` is the
raised open error), `shaFn` models `hashlib.sha256(...).hexdigest()`. -/
def recoverOne (devices : String → Option (List Nat)) (shaFn : List Nat → List Nat)
    (outputDir : String) (createSub : Bool) (info : RecInfo) : RecEntry × List FsOp :=
  if info.drivePath = "unknown" ∨ info.drivePath = "" then
    (⟨info.name, "failed", "invalid_drive_path", ""⟩, [])
  else
    match devices info.drivePath with
    | none => (⟨info.name, "failed", "drive_open_failed", ""⟩, [])
    | some dev =>
      let alignedOffset := info.offset / 512 * 512
      let adjust := info.offset - alignedOffset
      let alignedReadSize := (adjust + info.size + 511) / 512 * 512
      let alignedData := readAt dev alignedOffset alignedReadSize
      if alignedData = [] then (⟨info.name, "failed", "no_data_read", ""⟩, [])
      else
        let fileData := pySlice alignedData adjust (adjust + info.size)
        if fileData = [] then (⟨info.name, "failed", "no_data_after_alignment", ""⟩, [])
        else if info.sha256 ≠ [] ∧ shaFn fileData ≠ info.sha256 then
          (⟨info.name, "failed", "hash_mismatch", ""⟩, [])
        else
          if createSub then
            let folder := outputDir ++ "/" ++ info.typeStr.toUpper
            let outPath := folder ++ "/" ++ info.name
            (⟨info.name, "recovered", "", outPath⟩,
             [FsOp.makeDir folder, FsOp.writeFile outPath fileData])
          else
            let outPath := outputDir ++ "/" ++ info.name
            (⟨info.name, "recovered", "", outPath⟩, [FsOp.writeFile outPath fileData])

/-- Translation of the `recover_selected_files` batch loop: the output
directory is created once, then every selected record is processed in
order; per-record failures append a `failed` row and continue. -/
def recoverSelectedFiles (devices : String → Option (List Nat)) (shaFn : List Nat → List Nat)
    (outputDir : String) (createSub : Bool) (files : List RecInfo) :
    List RecEntry × List FsOp :=
  files.foldl
    (fun acc info =>
      let r := recoverOne devices shaFn outputDir createSub info
      (acc.1 ++ [r.1], acc.2 ++ r.2))
    ([], [FsOp.makeDir outputDir])

/-! ## Cluster scan (`_cluster_scan`) -/

/-- One row of the cluster map (`cluster_id`, `offset`, `is_empty` and the
previews; `preview` carries the first 256 raw bytes from which both the
hex and the ASCII preview strings are rendered). -/
structure ClusterInfo where
  clusterId : Nat
  offset : Nat
  isEmpty : Bool
  preview : List Nat
deriving Repr, DecidableEq

/-- The sampled cluster indices of `_cluster_scan`:
`range(0, total_clusters, sample_rate)` with `cluster_size = 4096`,
`total_clusters = drive_size // cluster_size` and
`sample_rate = max(1, total_clusters // 1000)`. -/
def clusterSampleIds (driveSize : Nat) : List Nat :=
  let totalClusters := driveSize / 4096
  let rate := max 1 (totalClusters / 1000)
  (List.range ((totalClusters + rate - 1) / rate)).map (· * rate)

/-- Translation of the `_cluster_scan` sampling loop: read 4096 bytes per
sampled cluster, silently skip clusters whose read returns no data, and
classify a cluster as empty exactly when every byte read is zero. -/
def clusterScan (dev : List Nat) (driveSize : Nat) : List ClusterInfo :=
  (clusterSampleIds driveSize).foldl
    (fun acc i =>
      let d := readAt dev (i * 4096) 4096
      if d = [] then acc
      else acc ++ [⟨i, i * 4096, d.all (· == 0), d.take 256⟩])
    []

/-! ## Health scan scoring (`_health_scan`) -/

/-- Normalized SMART attributes as consumed by the scoring code of
`_health_scan`.  A `none` field models an absent key or a value whose
string form fails to parse (both take the same `pass` path in the
source); `criticalWarning` models the condition
`warning_value != 'None' and 'Warning Level' in warning_value`. -/
structure SmartInfo where
  reallocated : Option Nat := none
  pending : Option Nat := none
  temperature : Option Nat := none
  mediaErrors : Option Nat := none
  criticalWarning : Bool := false
deriving Repr, DecidableEq

/-- The common shape of the three `health_score -= min(cap, scale*value)`
blocks of `_health_scan`: subtract `pen v` when the attribute is present
and positive. -/
def penaltyStep (s : Int) (o : Option Nat) (pen : Nat → Nat) : Int :=
  match o with
  | some v => if 0 < v then s - (pen v : Nat) else s
  | none => s

/-- The temperature block of `_health_scan`: subtract 5 when above 60 °C. -/
def tempStep (s : Int) (o : Option Nat) : Int :=
  match o with
  | some t => if 60 < t then s - 5 else s
  | none => s

/-- Translation of the health-score arithmetic of `_health_scan` (lines
3674-3790): the running score starts at 100 and is decremented in source
order; the result is the raw score, the reported score (`max(0, score)`)
and the status band. -/
def healthScan (badSectors : Nat) (smart : Option SmartInfo) : Int × Nat × String :=
  let s0 : Int := 100
  let s1 : Int := if 0 < badSectors then s0 - (min 50 (5 * badSectors) : Nat) else s0
  let s2 : Int := match smart with
    | none => s1
    | some sm =>
      let a := penaltyStep s1 sm.reallocated (fun v => min 20 v)
      let b := penaltyStep a sm.pending (fun v => min 15 (2 * v))
      let c := tempStep b sm.temperature
      let d := penaltyStep c sm.mediaErrors (fun v => min 30 (10 * v))
      if sm.criticalWarning then d - 20 else d
  let status :=
    if 90 ≤ s2 then "Excellent"
    else if 70 ≤ s2 then "Good"
    else if 50 ≤ s2 then "Fair"
    else "Poor"
  (s2, (max 0 s2).toNat, status)

/-! ## Filename helpers shared by the metadata-recovery paths -/

/-- ASCII whitespace recognized by Python `str.strip()`. -/
def isWsCode (c : Nat) : Bool := c = 32 || c = 9 || c = 10 || c = 13 || c = 11 || c = 12

/-- Python `str.strip()` on a list of character codes. -/
def stripWs (l : List Nat) : List Nat :=
  ((l.dropWhile isWsCode).reverse.dropWhile isWsCode).reverse

/-- Python `bytes.decode('ascii', errors='ignore')`: non-ASCII bytes are
dropped. -/
def asciiIgnore (l : List Nat) : List Nat := l.filter (· < 128)

/-- Python `str.lower()` on ASCII character codes. -/
def lowerCodes (l : List Nat) : List Nat :=
  l.map (fun c => if 65 ≤ c ∧ c ≤ 90 then c + 32 else c)

/-- Python `bytes.decode('utf-16le', errors='ignore')` restricted to BMP
code units: consecutive byte pairs become code points, a trailing odd byte
is dropped (surrogate pairing is not modelled; the filenames in scope are
ASCII). -/
def utf16leDecode : List Nat → List Nat
  | lo :: hi :: rest => (lo + 256 * hi) :: utf16leDecode rest
  | _ => []

/-- The segment of a filename after its last dot (`filename.split('.')[-1]`). -/
def afterLastDot (f : List Nat) : List Nat := (f.reverse.takeWhile (· ≠ 46)).reverse

/-- File extension derived from a recovered filename:
`filename.split('.')[-1].lower() if '.' in filename else 'dat'`. -/
def extFromName (f : List Nat) : List Nat :=
  if 46 ∈ f then lowerCodes (afterLastDot f) else [100, 97, 116]

/-- Translation of `_sanitize_filename`: the nine invalid characters are
replaced by `_`; names over 200 characters are truncated keeping the
extension (the `os.path.splitext` edge case of a leading dot is not
modelled; no name in scope is that long). -/
def sanitizeFilename (f : List Nat) : List Nat :=
  let mapped := f.map (fun c => if c ∈ [60, 62, 58, 34, 47, 92, 124, 63, 42] then 95 else c)
  if pyLen mapped ≤ 200 then mapped
  else
    let extRev := mapped.reverse.takeWhile (· ≠ 46)
    let ext := if pyLen extRev < pyLen mapped then 46 :: extRev.reverse else []
    mapped.take (200 - pyLen ext) ++ ext

/-- Decimal digits of a natural number as character codes. -/
def natDigits (n : Nat) : List Nat := (toString n).toList.map Char.toNat

/-- The fallback name `deleted_{cluster}_{offset}` of the FAT32 path. -/
def placeholderName (c e : Nat) : List Nat :=
  [100, 101, 108, 101, 116, 101, 100, 95] ++ natDigits c ++ [95] ++ natDigits e

/-! ## NTFS MFT recovery (`_recover_ntfs_deleted_files`) -/

/-- Translation of the `_parse_data_runs` loop body; `fuel` dominates the
iteration count (the position strictly increases). -/
def parseDataRunsAux (b : List Nat) (len : Nat) :
    Nat → Nat → Int → List (Int × Nat) → List (Int × Nat)
  | 0, _, _, acc => acc
  | fuel + 1, position, currentOffset, acc =>
    if position < len then
      let header := b.getD position 0
      if header = 0 then acc
      else
        let lengthSize := header % 16
        let offsetSize := header / 16 % 16
        if lengthSize = 0 ∨ len < position + 1 + lengthSize + offsetSize then acc
        else
          let p1 := position + 1
          let runLength := leNat (pySlice b p1 (p1 + lengthSize))
          let p2 := p1 + lengthSize
          if 0 < offsetSize then
            let runOffset := leIntSigned (pySlice b p2 (p2 + offsetSize))
            let co := currentOffset + runOffset
            parseDataRunsAux b len fuel (p2 + offsetSize) co (acc ++ [(co, runLength)])
          else
            parseDataRunsAux b len fuel p2 currentOffset (acc ++ [(0, runLength)])
    else acc

/-- Translation of `_parse_data_runs`: decode the NTFS data runs into
`(cluster_offset, cluster_count)` pairs; offsets accumulate as signed
relative LCNs, a zero offset size denotes a sparse run recorded as `(0, n)`. -/
def parseDataRuns (b : List Nat) : List (Int × Nat) :=
  parseDataRunsAux b (pyLen b) (pyLen b + 1) 0 0 []

/-- Translation of the `_read_data_runs` loop: sparse runs extend with
zeros, a negative cluster offset makes the seek raise so the bytes read so
far are returned untrimmed (the `except` path), and reading stops once
`file_size` bytes are collected; the final result is trimmed to
`file_size` and `None` when empty. -/
def readDataRunsGo (dev : List Nat) (bpc fileSize : Nat) :
    List (Int × Nat) → List Nat → Nat → Option (List Nat)
  | [], data, _ => if data = [] then none else some (data.take fileSize)
  | (co, cc) :: rest, data, bytesRead =>
    if co = 0 then
      let sparse := min (cc * bpc) (fileSize - bytesRead)
      let data1 := data ++ List.replicate sparse 0
      if fileSize ≤ bytesRead + sparse then
        if data1 = [] then none else some (data1.take fileSize)
      else readDataRunsGo dev bpc fileSize rest data1 (bytesRead + sparse)
    else if co < 0 then
      if data = [] then none else some data
    else
      let toRead := min (cc * bpc) (fileSize - bytesRead)
      let chunk := readAt dev (co.toNat * bpc) toRead
      let data1 := data ++ chunk
      if fileSize ≤ bytesRead + pyLen chunk then
        if data1 = [] then none else some (data1.take fileSize)
      else readDataRunsGo dev bpc fileSize rest data1 (bytesRead + pyLen chunk)

/-- Entry point of `_read_data_runs`. -/
def readDataRuns (dev : List Nat) (runs : List (Int × Nat)) (bpc fileSize : Nat) :
    Option (List Nat) :=
  readDataRunsGo dev bpc fileSize runs [] 0

/-- The attribute walk of `_parse_ntfs_entry_improved`, threading the
current filename, DATA payload and declared size.  The two `continue`
statements that skip `offset += attr_length` (an over-short or
out-of-bounds `FILE_NAME` content) never terminate in the source; those
executions are modelled as `none`. -/
def ntfsWalk (entry dev : List Nat) (bpc len : Nat) :
    Nat → Nat → Option (List Nat) → Option (List Nat) → Nat →
    Option (Option (List Nat) × Option (List Nat) × Nat)
  | 0, _, fn, fd, fs => some (fn, fd, fs)
  | fuel + 1, offset, fn, fd, fs =>
    if offset + 4 < len then
      let attrType := leNat (pySlice entry offset (offset + 4))
      if attrType = 4294967295 then some (fn, fd, fs)
      else if len < offset + 8 then some (fn, fd, fs)
      else
        let attrLength := leNat (pySlice entry (offset + 4) (offset + 8))
        if attrLength = 0 ∨ 1024 < attrLength ∨ len < offset + attrLength then some (fn, fd, fs)
        else if attrType = 48 then
          if offset + 8 < len then
            let nonResident := entry.getD (offset + 8) 0
            if nonResident = 0 then
              let contentOffset := leNat (pySlice entry (offset + 20) (offset + 22))
              let contentLen := leNat (pySlice entry (offset + 16) (offset + 20))
              if contentLen < 66 then none
              else
                let contentStart := offset + contentOffset
                if len < contentStart + 66 then none
                else
                  let fnLength := entry.getD (contentStart + 64) 0
                  let nameSpace := entry.getD (contentStart + 65) 0
                  if 0 < fnLength ∧ fnLength < 256 then
                    let fnStart := contentStart + 66
                    let fnBytes := fnLength * 2
                    if fnStart + fnBytes ≤ len then
                      let decoded := utf16leDecode (pySlice entry fnStart (fnStart + fnBytes))
                      let replace := (match fn with | none => true | some f => decide (f = [])) ||
                        ((decide (nameSpace = 1) || decide (nameSpace = 3)) && decide (decoded ≠ []))
                      if replace then
                        ntfsWalk entry dev bpc len fuel (offset + attrLength)
                          (some (stripWs decoded)) fd fs
                      else ntfsWalk entry dev bpc len fuel (offset + attrLength) fn fd fs
                    else ntfsWalk entry dev bpc len fuel (offset + attrLength) fn fd fs
                  else ntfsWalk entry dev bpc len fuel (offset + attrLength) fn fd fs
            else ntfsWalk entry dev bpc len fuel (offset + attrLength) fn fd fs
          else ntfsWalk entry dev bpc len fuel (offset + attrLength) fn fd fs
        else if attrType = 128 ∧ fd = none then
          if offset + 8 < len then
            let nonResident := entry.getD (offset + 8) 0
            if nonResident = 0 then
              let dataOffset := leNat (pySlice entry (offset + 20) (offset + 22))
              let dataLength := leNat (pySlice entry (offset + 16) (offset + 20))
              if 0 < dataLength ∧ offset + dataOffset + dataLength ≤ len then
                ntfsWalk entry dev bpc len fuel (offset + attrLength) fn
                  (some (pySlice entry (offset + dataOffset) (offset + dataOffset + dataLength)))
                  dataLength
              else ntfsWalk entry dev bpc len fuel (offset + attrLength) fn fd fs
            else
              let declared := leNat (pySlice entry (offset + 48) (offset + 56))
              let dataRunsOffset := leNat (pySlice entry (offset + 32) (offset + 34))
              if 0 < declared ∧ declared ≤ 104857600 then
                if 0 < dataRunsOffset ∧ offset + dataRunsOffset < len then
                  let runs := parseDataRuns (pySlice entry (offset + dataRunsOffset) (offset + attrLength))
                  if runs ≠ [] then
                    ntfsWalk entry dev bpc len fuel (offset + attrLength) fn
                      (readDataRuns dev runs bpc declared) declared
                  else ntfsWalk entry dev bpc len fuel (offset + attrLength) fn fd declared
                else ntfsWalk entry dev bpc len fuel (offset + attrLength) fn fd declared
              else ntfsWalk entry dev bpc len fuel (offset + attrLength) fn fd declared
          else ntfsWalk entry dev bpc len fuel (offset + attrLength) fn fd fs
        else ntfsWalk entry dev bpc len fuel (offset + attrLength) fn fd fs
    else some (fn, fd, fs)

/-- Result of `_parse_ntfs_entry_improved`: the decoded filename, the DATA
payload when one could be assembled, and the declared size. -/
structure NtfsParsed where
  filename : List Nat
  data : Option (List Nat)
  size : Nat
deriving Repr, DecidableEq

/-- Translation of `_parse_ntfs_entry_improved`. -/
def parseNtfsEntry (entry dev : List Nat) (bpc : Nat) : Option NtfsParsed :=
  let len := pyLen entry
  let firstAttrOffset := leNat (pySlice entry 20 22)
  if len ≤ firstAttrOffset ∨ firstAttrOffset = 0 then none
  else
    match ntfsWalk entry dev bpc len (len + 1) firstAttrOffset none none 0 with
    | none => none
    | some (fn, fd, fs) =>
      match fn with
      | some f => if f = [] then none else some ⟨f, fd, fs⟩
      | none => none

/-- One record emitted by `_recover_ntfs_deleted_files`.  `offset` is the
device offset the source stores: `mft_offset + entry_num * 1024`, the
offset of the MFT entry itself.  `isPart` models `is_partial` and is the
literal `False` of the source. -/
structure MftRecord where
  name : List Nat
  offset : Nat
  size : Nat
  extension : List Nat
  md5 : List Nat
  sha256 : List Nat
  validationScore : Int := 100
  isPart : Bool := false
  method : String := "normal_scan_mft"
  status : String := "indexed"
  drivePath : String
  originalFilename : List Nat
  declaredSize : Nat
  dataBytes : List Nat
deriving Repr, DecidableEq

/-- Per-entry filtering and record construction of the
`_recover_ntfs_deleted_files` scan loop (magic, deleted-not-directory
flags, parse, ≥100-byte non-zero payload). -/
def ntfsProcessEntry (dev : List Nat) (bpc mftOffset n : Nat) (drivePath : String)
    (md5Fn shaFn : List Nat → List Nat) (entry : List Nat) : Option MftRecord :=
  if bytesPrefix [70, 73, 76, 69] entry = false then none
  else
    let flags := leNat (pySlice entry 22 24)
    if flags % 2 = 1 ∨ flags / 2 % 2 = 1 then none
    else
      match parseNtfsEntry entry dev bpc with
      | none => none
      | some p =>
        match p.data with
        | none => none
        | some d =>
          if pyLen d < 100 then none
          else
            let chk := min (pyLen d) 512
            if pyCount [0] (pySlice d 0 chk) = chk then none
            else
              some { name := sanitizeFilename p.filename, offset := mftOffset + n * 1024,
                     size := pyLen d, extension := extFromName p.filename,
                     md5 := md5Fn d, sha256 := shaFn d, drivePath := drivePath,
                     originalFilename := p.filename, declaredSize := p.size, dataBytes := d }

/-- The sequential MFT entry walk: 1024-byte reads from `mft_offset`, stop
at the estimated entry count or at the first short read. -/
def ntfsEntryLoop (dev : List Nat) (bpc mftOffset : Nat) (drivePath : String)
    (md5Fn shaFn : List Nat → List Nat) : Nat → Nat → List MftRecord → List MftRecord
  | 0, _, acc => acc
  | remaining + 1, n, acc =>
    let entry := readAt dev (mftOffset + n * 1024) 1024
    if pyLen entry < 1024 then acc
    else
      match ntfsProcessEntry dev bpc mftOffset n drivePath md5Fn shaFn entry with
      | some r => ntfsEntryLoop dev bpc mftOffset drivePath md5Fn shaFn remaining (n + 1) (acc ++ [r])
      | none => ntfsEntryLoop dev bpc mftOffset drivePath md5Fn shaFn remaining (n + 1) acc

/-- Translation of `_recover_ntfs_deleted_files`: parse the NTFS boot
sector, derive the MFT offset, and walk
`min(total_size // 1024 if total_size else 10^6, 5·10^6)` entries. -/
def recoverNtfs (dev : List Nat) (totalSize : Nat) (drivePath : String)
    (md5Fn shaFn : List Nat → List Nat) : List MftRecord :=
  let boot := readAt dev 0 512
  let bps := leNat (pySlice boot 11 13)
  let spc := boot.getD 13 0
  let mftCluster := leNat (pySlice boot 48 56)
  let bpc := bps * spc
  let mftOffset := mftCluster * bpc
  let est := min (if 0 < totalSize then totalSize / 1024 else 1000000) 5000000
  ntfsEntryLoop dev bpc mftOffset drivePath md5Fn shaFn est 0 []

/-! ## FAT32 recovery (`_recover_from_fat32`) -/

/-- Translation of `_read_fat_clusters`: a single sequential read of
`file_size` bytes starting at the first cluster (deliberately no FAT
chain following). -/
def readFatClusters (dev : List Nat) (startCluster fileSize dataOffset bpc : Nat) :
    Option (List Nat) :=
  let d := readAt dev (dataOffset + (startCluster - 2) * bpc) fileSize
  if d = [] then none else some d

/-- One record emitted by `_recover_from_fat32`.  `offset` is what the
source stores: `cluster_offset + entry_offset`, the device offset of the
32-byte directory entry.  `isPart` models `is_partial`. -/
structure FatRecord where
  name : List Nat
  offset : Nat
  size : Nat
  extension : List Nat
  md5 : List Nat
  sha256 : List Nat
  validationScore : Int := 100
  isPart : Bool
  method : String := "fat32_directory"
  status : String := "indexed"
  drivePath : String
  startCluster : Nat
  declaredSize : Nat
  dataBytes : List Nat
deriving Repr, DecidableEq

/-- Per-directory-entry filtering and record construction of the
`_recover_from_fat32` loop (deleted marker `0xE5`, attribute bits, 8.3
name, size/cluster fields, sequential cluster read, zero check). -/
def fatProcessEntry (dev : List Nat) (dataOffset bpc clusterNum clusterOffset eo : Nat)
    (scanIsNormal : Bool) (interested : List (List Nat)) (drivePath : String)
    (md5Fn shaFn : List Nat → List Nat) (entry : List Nat) : Option FatRecord :=
  if entry.getD 0 0 ≠ 229 then none
  else
    let attr := entry.getD 11 0
    if attr / 16 % 2 = 1 then none
    else if attr / 8 % 2 = 1 then none
    else
      let namePart := stripWs (asciiIgnore (pySlice entry 1 8))
      let extPart := stripWs (asciiIgnore (pySlice entry 8 11))
      let namePart1 := if namePart = [] then placeholderName clusterNum eo else namePart
      let filename := if extPart ≠ [] then namePart1 ++ [46] ++ extPart else namePart1
      let fileExt := lowerCodes extPart
      if fileExt ∉ interested ∧ scanIsNormal = false then none
      else
        let fileSize := leNat (pySlice entry 28 32)
        let startCl := 65536 * leNat (pySlice entry 20 22) + leNat (pySlice entry 26 28)
        if fileSize < 100 then none
        else if startCl < 2 then none
        else
          match readFatClusters dev startCl (min fileSize 52428800) dataOffset bpc with
          | none => none
          | some d =>
            if pyLen d < 100 then none
            else if pyCount [0] (pySlice d 0 100) = 100 then none
            else
              some { name := sanitizeFilename filename, offset := clusterOffset + eo,
                     size := pyLen d,
                     extension := if fileExt = [] then [100, 97, 116] else fileExt,
                     md5 := md5Fn d, sha256 := shaFn d,
                     isPart := decide (pyLen d < fileSize), drivePath := drivePath,
                     startCluster := startCl, declaredSize := fileSize, dataBytes := d }

/-- Translation of `_recover_from_fat32`: parse the BPB, derive the data
region offset, then scan up to 1000 clusters from the start of the data
region, treating each as a directory cluster of 32-byte entries.  The
`interested` set and `scanIsNormal` mirror the extension filter
(`scan_type == 'normal'` admits every extension). -/
def recoverFat32 (dev : List Nat) (drivePath : String) (scanIsNormal : Bool)
    (interested : List (List Nat)) (md5Fn shaFn : List Nat → List Nat) : List FatRecord :=
  let boot := readAt dev 0 512
  let bps := leNat (pySlice boot 11 13)
  let spc := boot.getD 13 0
  let reserved := leNat (pySlice boot 14 16)
  let numFats := boot.getD 16 0
  let spf := leNat (pySlice boot 36 40)
  let bpc := bps * spc
  let dataOffset := reserved * bps + numFats * spf * bps
  (List.range 1000).foldl
    (fun acc n =>
      let clusterOffset := dataOffset + n * bpc
      let cdata := readAt dev clusterOffset bpc
      if pyLen cdata < 32 then acc
      else
        (List.range (pyLen cdata / 32)).foldl
          (fun acc2 k =>
            match fatProcessEntry dev dataOffset bpc n clusterOffset (32 * k) scanIsNormal
                interested drivePath md5Fn shaFn (pySlice cdata (32 * k) (32 * k + 32)) with
            | some r => acc2 ++ [r]
            | none => acc2)
          acc)
    []

/-! ## General helper lemmas -/

/-- Accumulator characterization of `pyLen`. -/
theorem pyLen_go (l : List Nat) : ∀ acc, pyLen l acc = acc + l.length := by
  induction l with
  | nil => intro acc; simp [pyLen]
  | cons a t ih => intro acc; simp [pyLen, ih]; omega

/-- `pyLen` computes the list length. -/
theorem pyLen_eq (l : List Nat) : pyLen l = l.length := by
  simpa using pyLen_go l 0

/-- The default head of a nonempty list is a member. -/
theorem headD_mem {α : Type} (l : List α) (d : α) (h : l ≠ []) : l.headD d ∈ l := by
  cases l with
  | nil => exact absurd rfl h
  | cons a t => simp

/-! ## C9: health score arithmetic -/

/-- Value of an optional SMART attribute under a penalty function, zero
when absent. -/
def optPen (o : Option Nat) (pen : Nat → Nat) : Nat :=
  match o with
  | some v => pen v
  | none => 0

/-- Deduction for bad sectors as the claim states it: 5 per bad sector,
capped at 50. -/
def specBadPenalty (bad : Nat) : Nat := min 50 (5 * bad)

/-- Deduction for reallocated sectors: at most 20. -/
def specReallocPenalty (smart : Option SmartInfo) : Nat :=
  match smart with
  | some sm => optPen sm.reallocated (fun v => min 20 v)
  | none => 0

/-- Deduction for pending sectors: at most 15. -/
def specPendingPenalty (smart : Option SmartInfo) : Nat :=
  match smart with
  | some sm => optPen sm.pending (fun v => min 15 (2 * v))
  | none => 0

/-- Deduction for temperature: 5 when above 60 °C. -/
def specTempPenalty (smart : Option SmartInfo) : Nat :=
  match smart with
  | some sm => optPen sm.temperature (fun t => if 60 < t then 5 else 0)
  | none => 0

/-- Deduction for media errors: at most 30. -/
def specMediaPenalty (smart : Option SmartInfo) : Nat :=
  match smart with
  | some sm => optPen sm.mediaErrors (fun v => min 30 (10 * v))
  | none => 0

/-- Deduction for a critical warning: 20 when present. -/
def specCritPenalty (smart : Option SmartInfo) : Nat :=
  match smart with
  | some sm => if sm.criticalWarning then 20 else 0
  | none => 0

/-- The status bands of the claim: ≥90 Excellent, ≥70 Good, ≥50 Fair,
else Poor. -/
def specHealthStatus (s : Int) : String :=
  if 90 ≤ s then "Excellent" else if 70 ≤ s then "Good" else if 50 ≤ s then "Fair" else "Poor"

/-- A guarded penalty subtraction equals subtracting the `optPen` value
when the penalty vanishes at zero. -/
theorem penaltyStep_eq (s : Int) (o : Option Nat) (pen : Nat → Nat) (h : pen 0 = 0) :
    penaltyStep s o pen = s - (optPen o pen : Nat) := by
  rcases o with _ | v
  · simp [penaltyStep, optPen]
  · rcases Nat.eq_zero_or_pos v with hv | hv
    · subst hv; simp [penaltyStep, optPen, h]
    · simp [penaltyStep, optPen, hv]

/-- The temperature block equals subtracting its `optPen` value. -/
theorem tempStep_eq (s : Int) (o : Option Nat) :
    tempStep s o = s - (optPen o (fun t => if 60 < t then 5 else 0) : Nat) := by
  rcases o with _ | t
  · simp [tempStep, optPen]
  · by_cases ht : 60 < t <;> simp [tempStep, optPen, ht]

/-- C9 (confirmed): the health score starts at 100 and deducts at most 50
for bad sectors (5 per bad sector, capped), at most 20 for reallocated
sectors, at most 15 for pending sectors, 5 when the temperature exceeds
60 °C, at most 30 for media errors, and 20 for any critical warning; the
reported status is Excellent when the score is ≥ 90, Good when ≥ 70, Fair
when ≥ 50, and Poor otherwise. -/
theorem c9_health_score_arithmetic (bad : Nat) (smart : Option SmartInfo) :
    (healthScan bad smart).1 =
      100 - (specBadPenalty bad : Int) - specReallocPenalty smart - specPendingPenalty smart
        - specTempPenalty smart - specMediaPenalty smart - specCritPenalty smart ∧
    specBadPenalty bad ≤ 50 ∧ specReallocPenalty smart ≤ 20 ∧
    specPendingPenalty smart ≤ 15 ∧ specTempPenalty smart ≤ 5 ∧
    specMediaPenalty smart ≤ 30 ∧ specCritPenalty smart ≤ 20 ∧
    (healthScan bad smart).2.1 = (max 0 (healthScan bad smart).1).toNat ∧
    (healthScan bad smart).2.2 = specHealthStatus (healthScan bad smart).1 := by
  have hopt : ∀ (o : Option Nat) (pen : Nat → Nat) (k : Nat),
      (∀ v, pen v ≤ k) → optPen o pen ≤ k := by
    intro o pen k hk
    rcases o with _ | v
    · simp [optPen]
    · simpa [optPen] using hk v
  have hbad : specBadPenalty bad ≤ 50 := by simp [specBadPenalty]
  have hre : specReallocPenalty smart ≤ 20 := by
    rcases smart with _ | sm
    · simp [specReallocPenalty]
    · exact hopt _ _ _ (fun v => by simp)
  have hpe : specPendingPenalty smart ≤ 15 := by
    rcases smart with _ | sm
    · simp [specPendingPenalty]
    · exact hopt _ _ _ (fun v => by simp)
  have hte : specTempPenalty smart ≤ 5 := by
    rcases smart with _ | sm
    · simp [specTempPenalty]
    · exact hopt _ _ _ (fun v => by split <;> omega)
  have hme : specMediaPenalty smart ≤ 30 := by
    rcases smart with _ | sm
    · simp [specMediaPenalty]
    · exact hopt _ _ _ (fun v => by simp)
  have hcw : specCritPenalty smart ≤ 20 := by
    rcases smart with _ | sm
    · simp [specCritPenalty]
    · simp only [specCritPenalty]; split <;> omega
  refine ⟨?_, hbad, hre, hpe, hte, hme, hcw, rfl, rfl⟩
  rcases smart with _ | sm
  · simp only [healthScan, specBadPenalty, specReallocPenalty, specPendingPenalty,
      specTempPenalty, specMediaPenalty, specCritPenalty]
    split_ifs <;> omega
  · simp only [healthScan, specBadPenalty, specReallocPenalty, specPendingPenalty,
      specTempPenalty, specMediaPenalty, specCritPenalty]
    rw [penaltyStep_eq _ _ _ (by simp), penaltyStep_eq _ _ _ (by simp), tempStep_eq,
      penaltyStep_eq _ _ _ (by simp)]
    cases hc : sm.criticalWarning <;> split_ifs <;> omega

/-! ## C10: cluster-sample emptiness classification -/

/-- Membership invariant of the `_cluster_scan` sampling fold. -/
theorem clusterScan_fold_mem (dev : List Nat) (ids : List Nat) :
    ∀ (acc : List ClusterInfo) (c : ClusterInfo),
      c ∈ ids.foldl
        (fun acc i =>
          let d := readAt dev (i * 4096) 4096
          if d = [] then acc
          else acc ++ [⟨i, i * 4096, d.all (· == 0), d.take 256⟩]) acc →
      c ∈ acc ∨
        (readAt dev (c.clusterId * 4096) 4096 ≠ [] ∧
          (c.isEmpty = true ↔ ∀ b ∈ readAt dev (c.clusterId * 4096) 4096, b = 0)) := by
  induction ids with
  | nil => intro acc c h; exact Or.inl h
  | cons i t ih =>
    intro acc c h
    simp only [List.foldl_cons] at h
    by_cases hd : readAt dev (i * 4096) 4096 = []
    · simp only [hd, if_pos rfl] at h
      exact ih _ _ h
    · simp only [if_neg hd] at h
      rcases ih _ _ h with hacc | hprop
      · rcases List.mem_append.mp hacc with h1 | h2
        · exact Or.inl h1
        · right
          have hc : c = ⟨i, i * 4096, (readAt dev (i * 4096) 4096).all (· == 0),
              (readAt dev (i * 4096) 4096).take 256⟩ := by simpa using h2
          subst hc
          refine ⟨hd, ?_⟩
          simp [List.all_eq_true]
      · exact Or.inr hprop

/-- C10 (confirmed): for every cluster record produced by the cluster
scan, `is_empty` is true exactly when every byte read from that 4 KiB
cluster equals zero, and clusters for which the read returns no data are
silently skipped and produce no record. -/
theorem c10_cluster_empty_classification (dev : List Nat) (driveSize : Nat) :
    (∀ c ∈ clusterScan dev driveSize,
        readAt dev (c.clusterId * 4096) 4096 ≠ [] ∧
        (c.isEmpty = true ↔ ∀ b ∈ readAt dev (c.clusterId * 4096) 4096, b = 0)) ∧
    (∀ i, readAt dev (i * 4096) 4096 = [] →
        ∀ c ∈ clusterScan dev driveSize, c.clusterId ≠ i) := by
  have base : ∀ c ∈ clusterScan dev driveSize,
      readAt dev (c.clusterId * 4096) 4096 ≠ [] ∧
      (c.isEmpty = true ↔ ∀ b ∈ readAt dev (c.clusterId * 4096) 4096, b = 0) := by
    intro c hc
    have := clusterScan_fold_mem dev (clusterSampleIds driveSize) [] c hc
    simpa using this
  refine ⟨base, ?_⟩
  intro i hi c hc hne
  exact (base c hc).1 (hne ▸ hi)

/-! ## C2: hash-mismatch handling in the extractor -/

/-- An empty slice can only come from an empty aligned read. -/
theorem pySlice_nil (a b : Nat) : pySlice [] a b = [] := by
  simp [pySlice]

/-- Lengths of the batch fold of `recover_selected_files`. -/
theorem recoverSelected_fold_length (devices : String → Option (List Nat))
    (shaFn : List Nat → List Nat) (outputDir : String) (createSub : Bool) :
    ∀ (files : List RecInfo) (acc : List RecEntry × List FsOp),
      (files.foldl
        (fun acc info =>
          let r := recoverOne devices shaFn outputDir createSub info
          (acc.1 ++ [r.1], acc.2 ++ r.2)) acc).1.length = acc.1.length + files.length := by
  intro files
  induction files with
  | nil => intro acc; simp
  | cons f t ih => intro acc; simp [ih]; omega

/-- C2 (confirmed): for every selected record with a non-empty stored
sha256, if the SHA-256 of the bytes re-read from the device differs from
the stored hash, the Extractor writes no output file for that record and
reports it as failed with reason `hash_mismatch`; and the batch continues
with the remaining records (every selected record yields a result row). -/
theorem c2_hash_mismatch_no_write :
    (∀ (devices : String → Option (List Nat)) (shaFn : List Nat → List Nat)
        (outDir : String) (csub : Bool) (info : RecInfo) (dev : List Nat),
        devices info.drivePath = some dev →
        info.drivePath ≠ "unknown" →
        info.drivePath ≠ "" →
        info.sha256 ≠ [] →
        extractorReadBytes dev info.offset info.size ≠ [] →
        shaFn (extractorReadBytes dev info.offset info.size) ≠ info.sha256 →
        recoverOne devices shaFn outDir csub info =
          (⟨info.name, "failed", "hash_mismatch", ""⟩, [])) ∧
    (∀ (devices : String → Option (List Nat)) (shaFn : List Nat → List Nat)
        (outDir : String) (csub : Bool) (files : List RecInfo),
        (recoverSelectedFiles devices shaFn outDir csub files).1.length = files.length) := by
  constructor
  · intro devices shaFn outDir csub info dev hdev hup hne hsha hbytes hmis
    simp only [extractorReadBytes] at hbytes hmis
    have halign : readAt dev (info.offset / 512 * 512)
        ((info.offset - info.offset / 512 * 512 + info.size + 511) / 512 * 512) ≠ [] := by
      intro h
      exact hbytes (by rw [h]; exact pySlice_nil _ _)
    simp only [recoverOne, hdev]
    rw [if_neg (by push_neg; exact ⟨hup, hne⟩), if_neg halign, if_neg hbytes,
      if_pos ⟨hsha, hmis⟩]
  · intro devices shaFn outDir csub files
    simpa using recoverSelected_fold_length devices shaFn outDir csub files ([], [FsOp.makeDir outDir])

/-- A concrete device of 600 bytes of value 5 for the extractor witnesses. -/
def devW : List Nat := List.replicate 600 5

/-- A selected record whose stored hash cannot match the device bytes. -/
def infoW : RecInfo :=
  { drivePath := "D", offset := 0, size := 100, sha256 := [9], name := "f",
    typeStr := "T", method := "m" }

/-- Witness for C2 at a concrete device and record. -/
theorem c2_witness :
    recoverOne (fun _ => some devW) (fun l => l) "out" false infoW =
      (⟨"f", "failed", "hash_mismatch", ""⟩, []) ∧
    (recoverSelectedFiles (fun _ => some devW) (fun l => l) "out" false [infoW]).1.length = 1 :=
  ⟨c2_hash_mismatch_no_write.1 (fun _ => some devW) (fun l => l) "out" false infoW devW rfl
      (by decide) (by decide) (by decide) (by decide) (by decide),
    c2_hash_mismatch_no_write.2 (fun _ => some devW) (fun l => l) "out" false [infoW]⟩

/-! ## C8: atomicity of extraction writes -/

/-- The claim as stated: every output file the Extractor produces is first
written under a temporary name and then renamed to the final path. -/
def atomicWriteClaim : Prop :=
  ∀ (devices : String → Option (List Nat)) (shaFn : List Nat → List Nat)
    (outDir : String) (csub : Bool) (info : RecInfo),
    (recoverOne devices shaFn outDir csub info).1.status = "recovered" →
    ∃ tmp, tmp ≠ (recoverOne devices shaFn outDir csub info).1.path ∧
      (∃ d, FsOp.writeFile tmp d ∈ (recoverOne devices shaFn outDir csub info).2) ∧
      FsOp.renameFile tmp (recoverOne devices shaFn outDir csub info).1.path ∈
        (recoverOne devices shaFn outDir csub info).2

/-- A record that the extractor recovers successfully (no stored hash). -/
def infoW2 : RecInfo :=
  { drivePath := "D", offset := 0, size := 100, sha256 := [], name := "f",
    typeStr := "T", method := "m" }

/-- C8 counterexample: the source writes with a plain
`open(output_path, 'wb')` and performs no rename, so the atomic-write
claim fails on a concrete successful recovery whose only filesystem
operation is a direct write to the final path. -/
theorem c8_counterexample : ¬ atomicWriteClaim := by
  intro h
  obtain ⟨tmp, -, -, hren⟩ :=
    h (fun _ => some devW) (fun l => l) "out" false infoW2 rfl
  rw [show (recoverOne (fun _ => some devW) (fun l => l) "out" false infoW2).2 =
      [FsOp.writeFile "out/f" (List.replicate 100 5)] from rfl] at hren
  simp at hren

/-- Per-record absence of renames in the extractor's operation list. -/
theorem recoverOne_no_rename (devices : String → Option (List Nat))
    (shaFn : List Nat → List Nat) (outDir : String) (csub : Bool) (info : RecInfo) :
    ((recoverOne devices shaFn outDir csub info).2.all (fun op => !op.isRename)) = true := by
  simp only [recoverOne]
  split
  · simp
  · split
    · simp
    · split
      · simp
      · split
        · simp
        · split
          · simp
          · split <;> simp [FsOp.isRename]

/-- C8 amended: the Extractor writes each output file directly to its
final path with a single write (no temporary name, no rename); a
successful record always has a direct write to its reported path. -/
theorem c8_direct_write :
    (∀ (devices : String → Option (List Nat)) (shaFn : List Nat → List Nat)
        (outDir : String) (csub : Bool) (files : List RecInfo),
        ((recoverSelectedFiles devices shaFn outDir csub files).2.all
          (fun op => !op.isRename)) = true) ∧
    (∀ (devices : String → Option (List Nat)) (shaFn : List Nat → List Nat)
        (outDir : String) (csub : Bool) (info : RecInfo),
        (recoverOne devices shaFn outDir csub info).1.status = "recovered" →
        ∃ d, FsOp.writeFile (recoverOne devices shaFn outDir csub info).1.path d ∈
          (recoverOne devices shaFn outDir csub info).2) := by
  constructor
  · intro devices shaFn outDir csub files
    have main : ∀ (fs : List RecInfo) (acc : List RecEntry × List FsOp),
        (acc.2.all (fun op => !op.isRename)) = true →
        ((fs.foldl
          (fun acc info =>
            let r := recoverOne devices shaFn outDir csub info
            (acc.1 ++ [r.1], acc.2 ++ r.2)) acc).2.all (fun op => !op.isRename)) = true := by
      intro fs
      induction fs with
      | nil => intro acc h; simpa using h
      | cons f t ih =>
        intro acc h
        refine ih _ ?_
        simp only [List.all_append]
        rw [h, recoverOne_no_rename]
        rfl
    exact main files ([], [FsOp.makeDir outDir]) (by simp [FsOp.isRename])
  · intro devices shaFn outDir csub info h
    rcases hx : recoverOne devices shaFn outDir csub info with ⟨e, ops⟩
    rw [hx] at h
    simp only [recoverOne] at hx
    split at hx
    · cases hx; simp at h
    · split at hx
      · cases hx; simp at h
      · split at hx
        · cases hx; simp at h
        · split at hx
          · cases hx; simp at h
          · split at hx
            · cases hx; simp at h
            · split at hx
              · cases hx
                exact ⟨_, List.mem_cons_of_mem _ (List.mem_cons_self _ _)⟩
              · cases hx
                exact ⟨_, List.mem_cons_self _ _⟩

/-- Witness for the amended C8 at a concrete successful recovery. -/
theorem c8_witness :
    ((recoverSelectedFiles (fun _ => some devW) (fun l => l) "out" false [infoW2]).2.all
      (fun op => !op.isRename)) = true ∧
    ∃ d, FsOp.writeFile
        (recoverOne (fun _ => some devW) (fun l => l) "out" false infoW2).1.path d ∈
      (recoverOne (fun _ => some devW) (fun l => l) "out" false infoW2).2 :=
  ⟨c8_direct_write.1 (fun _ => some devW) (fun l => l) "out" false [infoW2],
    c8_direct_write.2 (fun _ => some devW) (fun l => l) "out" false infoW2 rfl⟩

/-! ## C6: validator scoring -/

/-- Presence of the registry footer near the end of the candidate (the
`has_footer` test of the source). -/
def specFooterPresent (d : List Nat) (sig : SigInfo) : Bool :=
  match sig.footer with
  | some f => pyEndsWith d f || pyContains (pyTail d 100) f
  | none => false

/-- Presence of the strict format terminator the source checks for (JPEG
EOI, PNG IEND trailer, PDF `%%EOF`, ZIP-family EOCD); formats without a
structural terminator yield `false`. -/
def specStrictTerminator (d : List Nat) (sig : SigInfo) : Bool :=
  let ext := sig.extension
  if ext = "jpg" ∨ ext = "jpeg" then
    pyEndsWith d [0xFF, 0xD9] || pyContains (pyTail d 10) [0xFF, 0xD9]
  else if ext = "png" then pyEndsWith d iendBytes
  else if ext = "pdf" then pyContains (pyTail d 100) pdfEofBytes
  else if ext = "docx" ∨ ext = "xlsx" ∨ ext = "pptx" ∨ ext = "zip" then
    pyContains (pyTail d 1000) eocdBytes
  else false

/-- The C6 claim as stated: for every candidate that passes base
validation the score is 50, plus 30 if a footer or terminator is present,
plus a format-specific 20 bonus when the strict terminator is located,
clamped to [0,100]; and `is_partial` is set exactly when a structural
terminator is absent while base rules still pass. -/
def validatorScoreClaim : Prop :=
  ∀ (d : List Nat) (sig : SigInfo),
    (validateFileWithScore d sig).is_valid = true →
    (validateFileWithScore d sig).score =
      max 0 (min 100 (50 + (if specFooterPresent d sig || specStrictTerminator d sig then (30 : Int) else 0)
        + (if specStrictTerminator d sig then (20 : Int) else 0))) ∧
    ((validateFileWithScore d sig).isPart = true ↔
      (specFooterPresent d sig || specStrictTerminator d sig) = false)

/-- A 512-byte WAV candidate that passes strict validation. -/
def wavB : List Nat :=
  [82, 73, 70, 70, 248, 1, 0, 0, 87, 65, 86, 69, 102, 109, 116, 32, 100, 97, 116, 97] ++
    List.replicate 492 0

/-- C6 counterexample: the 512-byte WAV candidate passes base validation,
has no footer and no strict terminator, yet the source scores it 90
(50 + 30 for the undefined footer + 10 for its size class) with
`is_partial = false`, while the claim's formula yields 50 with
`is_partial = true`. -/
theorem c6_counterexample : ¬ validatorScoreClaim := by
  intro h
  obtain ⟨hs, hp⟩ := h wavB wavSig (by decide)
  rw [show (validateFileWithScore wavB wavSig).score = 90 from by decide,
    show (specFooterPresent wavB wavSig || specStrictTerminator wavB wavSig) = false from by decide,
    show specStrictTerminator wavB wavSig = false from by decide] at hs
  simp at hs

/-- The footer contribution of `_validate_file_with_score`: +30 for a
present footer, +10 (and the partial flag) for a defined-but-absent
footer, +30 when the signature defines no footer. -/
def amendedFooterStep (d : List Nat) (sig : SigInfo) : Int × Bool :=
  match sig.footer with
  | some f => if pyEndsWith d f || pyContains (pyTail d 100) f then (30, false) else (10, true)
  | none => (30, false)

/-- The format-specific contribution of `_validate_file_with_score`:
±20/−10 for terminator presence in jpg/png/pdf/ZIP-family, +20/+10 by
size for mp4/mov/avi/wav, +20/+15/+10 by `FFFB` frame count for mp3, 0
otherwise; the flag records a missing structural terminator. -/
def amendedFormatStep (d : List Nat) (sig : SigInfo) : Int × Bool :=
  let ext := sig.extension
  if ext = "jpg" ∨ ext = "jpeg" then
    if pyEndsWith d [0xFF, 0xD9] || pyContains (pyTail d 10) [0xFF, 0xD9] then (20, false)
    else (-10, true)
  else if ext = "png" then
    if pyEndsWith d iendBytes then (20, false) else (-10, true)
  else if ext = "pdf" then
    if pyContains (pyTail d 100) pdfEofBytes then (20, false) else (-10, true)
  else if ext = "docx" ∨ ext = "xlsx" ∨ ext = "pptx" ∨ ext = "zip" then
    if pyContains (pyTail d 1000) eocdBytes then (20, false) else (-10, true)
  else if ext = "mp4" ∨ ext = "mov" ∨ ext = "avi" ∨ ext = "wav" then
    if 100000 < pyLen d then (20, false) else (10, false)
  else if ext = "mp3" then
    if 1000 < pyCount [0xFF, 0xFB] d then (20, false)
    else if 500 < pyCount [0xFF, 0xFB] d then (15, false)
    else (10, false)
  else (0, false)

set_option maxHeartbeats 1600000 in
/-- C6 amended: for every candidate that passes base validation the score
is `clamp(50 + footer contribution + format contribution)` with the
contributions of `amendedFooterStep` and `amendedFormatStep`, and
`is_partial` is set exactly when the signature's footer is defined but
absent or the format's structural terminator is absent. -/
theorem c6_amended_scoring (d : List Nat) (sig : SigInfo)
    (h : (validateFileWithScore d sig).is_valid = true) :
    (validateFileWithScore d sig).score =
      max 0 (min 100 (50 + (amendedFooterStep d sig).1 + (amendedFormatStep d sig).1)) ∧
    (validateFileWithScore d sig).isPart =
      ((amendedFooterStep d sig).2 || (amendedFormatStep d sig).2) := by
  by_cases hlen : pyLen d < 512
  · rw [show (validateFileWithScore d sig).is_valid = false from by
      simp [validateFileWithScore, hlen]] at h
    cases h
  · by_cases hval : validateFile d sig = true
    · have hval2 : ¬ (validateFile d sig = false) := by simp [hval]
      rcases hfoot : sig.footer with _ | f <;>
        simp only [validateFileWithScore, if_neg hlen, if_neg hval2, hfoot,
          amendedFooterStep, amendedFormatStep] <;>
        split_ifs <;> exact ⟨rfl, rfl⟩
    · have hval2 : validateFile d sig = false := by
        cases hv : validateFile d sig
        · rfl
        · exact absurd hv hval
      rw [show (validateFileWithScore d sig).is_valid = false from by
        simp [validateFileWithScore, hlen, hval2]] at h
      cases h

/-- Witness for the amended C6 at the concrete WAV candidate. -/
theorem c6_witness :
    (validateFileWithScore wavB wavSig).score =
      max 0 (min 100 (50 + (amendedFooterStep wavB wavSig).1 + (amendedFormatStep wavB wavSig).1)) ∧
    (validateFileWithScore wavB wavSig).isPart =
      ((amendedFooterStep wavB wavSig).2 || (amendedFormatStep wavB wavSig).2) :=
  c6_amended_scoring wavB wavSig (by decide)

/-! ## Concrete NTFS device models for C1 and C5 -/

/-- An NTFS boot sector: 512 bytes per sector, 1 sector per cluster, MFT
at cluster 1 (byte offset 512). -/
def bootN : List Nat :=
  List.replicate 11 0 ++ [0, 2] ++ [1] ++ List.replicate 34 0 ++
    [1, 0, 0, 0, 0, 0, 0, 0] ++ List.replicate 456 0

/-- A deleted MFT entry with a Win32 FILE_NAME `A` and a resident unnamed
DATA attribute of 120 bytes of value 66. -/
def entryA : List Nat :=
  [70, 73, 76, 69] ++ List.replicate 16 0 ++ [56, 0] ++ [0, 0] ++ List.replicate 32 0 ++
    [48, 0, 0, 0] ++ [92, 0, 0, 0] ++ [0] ++ List.replicate 7 0 ++
    [68, 0, 0, 0] ++ [24, 0] ++ [0, 0] ++ List.replicate 64 0 ++ [1] ++ [1] ++ [65, 0] ++
    [128, 0, 0, 0] ++ [144, 0, 0, 0] ++ [0] ++ List.replicate 7 0 ++
    [120, 0, 0, 0] ++ [24, 0] ++ [0, 0] ++ List.replicate 120 66 ++
    [255, 255, 255, 255] ++ List.replicate 728 0

/-- The 1536-byte device: boot sector followed by one MFT entry at 512. -/
def ntfsDev : List Nat := bootN ++ entryA

/-- The single record the NTFS scan emits for `ntfsDev`: its `offset` is
512, the device offset of the MFT entry itself, while its hashes are
taken over the resident DATA payload (120 bytes of 66). -/
def mftRecA : MftRecord :=
  { name := [65], offset := 512, size := 120, extension := [100, 97, 116],
    md5 := List.replicate 120 66, sha256 := List.replicate 120 66, drivePath := "D",
    originalFilename := [65], declaredSize := 120, dataBytes := List.replicate 120 66 }

/-- A default inhabitant used with `List.headD`. -/
def mftDflt : MftRecord :=
  { name := [], offset := 0, size := 0, extension := [], md5 := [], sha256 := [],
    drivePath := "", originalFilename := [], declaredSize := 0, dataBytes := [] }

set_option maxRecDepth 200000 in
set_option maxHeartbeats 4000000 in
/-- Concrete evaluation: the NTFS scan on `ntfsDev` yields exactly `mftRecA`. -/
theorem recoverNtfs_ntfsDev_eq :
    recoverNtfs ntfsDev 1536 "D" (fun l => l) (fun l => l) = [mftRecA] := by rfl

set_option maxRecDepth 200000 in
set_option maxHeartbeats 4000000 in
/-- C1 (code bug): the NTFS scan on `ntfsDev` indexes one record whose
stored hash is over the 120-byte resident payload, but whose stored
offset (512) is the offset of the MFT entry, not of the payload; the
extractor's sector-aligned re-read at that offset therefore returns the
entry header bytes (starting with `FILE`), which differ from the payload,
and `recover_selected_files` fails the record with `hash_mismatch`
instead of round-tripping it. -/
theorem c1_mft_roundtrip_fails :
    recoverNtfs ntfsDev 1536 "D" (fun l => l) (fun l => l) = [mftRecA] ∧
    mftRecA.sha256 = List.replicate 120 66 ∧
    mftRecA.offset = 512 ∧ mftRecA.size = 120 ∧
    extractorReadBytes ntfsDev 512 120 ≠ List.replicate 120 66 ∧
    recoverOne (fun p => if p = "D" then some ntfsDev else none) (fun l => l) "out" false
        ⟨"D", 512, 120, List.replicate 120 66, "A", "DAT", "normal_scan_mft"⟩ =
      (⟨"A", "failed", "hash_mismatch", ""⟩, []) := by
  refine ⟨recoverNtfs_ntfsDev_eq, rfl, rfl, rfl, ?_, by rfl⟩
  intro hcontra
  have h0 : (extractorReadBytes ntfsDev 512 120).headD 0 = 70 := by rfl
  rw [hcontra] at h0
  exact absurd h0 (by decide)

/-! ## C5: the NTFS 100 MB size cap -/

/-- A deleted MFT entry whose `DATA` attribute is non-resident and declares
a size of `104857601` bytes (100 MB + 1), with a valid resident `FILE_NAME`
attribute (name `A`) and a data-runs offset of 64. -/
def entryB : List Nat :=
  [70, 73, 76, 69] ++ List.replicate 16 0 ++ [56, 0] ++ [0, 0] ++ List.replicate 32 0 ++
    [48, 0, 0, 0] ++ [92, 0, 0, 0] ++ [0] ++ List.replicate 7 0 ++
    [68, 0, 0, 0] ++ [24, 0] ++ [0, 0] ++ List.replicate 64 0 ++ [1] ++ [1] ++ [65, 0] ++
    [128, 0, 0, 0] ++ [144, 0, 0, 0] ++ [1] ++ List.replicate 7 0 ++
    List.replicate 8 0 ++ List.replicate 8 0 ++ [64, 0] ++ List.replicate 14 0 ++
    [1, 0, 64, 6, 0, 0, 0, 0] ++ List.replicate 88 0 ++
    [255, 255, 255, 255] ++ List.replicate 728 0

/-- NTFS device whose single MFT entry is `entryB`. -/
def ntfsDevB : List Nat := bootN ++ entryB

set_option maxRecDepth 200000 in
set_option maxHeartbeats 4000000 in
/-- Concrete evaluation: the NTFS scan on `ntfsDevB` yields no record. -/
theorem recoverNtfs_ntfsDevB_eq :
    recoverNtfs ntfsDevB 1536 "D" (fun l => l) (fun l => l) = [] := by rfl

/-- The spec's size-cap behaviour, instantiated at the first MFT entry: if
that entry is a deleted `FILE` record whose parse reports a declared size
above 104857600 bytes, the scan still indexes a record for it, truncated at
the cap and flagged `is_partial`. -/
def mftSizeCapClaim : Prop :=
  ∀ (dev : List Nat) (totalSize : Nat) (dp : String)
      (md5Fn shaFn : List Nat → List Nat) (entry : List Nat) (p : NtfsParsed),
    entry = readAt dev (leNat (pySlice (readAt dev 0 512) 48 56) *
        (leNat (pySlice (readAt dev 0 512) 11 13) * (readAt dev 0 512).getD 13 0)) 1024 →
    parseNtfsEntry entry dev
        (leNat (pySlice (readAt dev 0 512) 11 13) * (readAt dev 0 512).getD 13 0) = some p →
    bytesPrefix [70, 73, 76, 69] entry = true →
    leNat (pySlice entry 22 24) = 0 →
    0 < totalSize / 1024 →
    104857600 < p.size →
    ∃ r ∈ recoverNtfs dev totalSize dp md5Fn shaFn,
      r.isPart = true ∧ r.size = 104857600

set_option maxRecDepth 200000 in
set_option maxHeartbeats 4000000 in
/-- C5 (counterexample): on `ntfsDevB` the first MFT entry is a deleted
file whose non-resident `DATA` attribute declares 104857601 bytes; the
source's `0 < size_value ≤ max_size` guard skips such an attribute without
reading any payload, the parse returns no data, and the scan emits no
record at all — rather than a record truncated at the cap with
`is_partial = True`. -/
theorem c5_counterexample : ¬ mftSizeCapClaim := by
  intro h
  rcases h ntfsDevB 1536 "D" (fun l => l) (fun l => l) entryB
      ⟨[65], none, 104857601⟩ (by rfl) (by rfl) (by rfl) (by rfl) (by decide) (by decide)
    with ⟨r, hr, _⟩
  rw [recoverNtfs_ntfsDevB_eq] at hr
  exact absurd hr (List.not_mem_nil r)

/-- Every record built by the per-entry MFT filter carries
`is_partial = False`. -/
theorem ntfsProcessEntry_isPart (dev : List Nat) (bpc mftOffset n : Nat) (dp : String)
    (md5Fn shaFn : List Nat → List Nat) (entry : List Nat) (r : MftRecord)
    (h : ntfsProcessEntry dev bpc mftOffset n dp md5Fn shaFn entry = some r) :
    r.isPart = false := by
  simp only [ntfsProcessEntry] at h
  repeat' split at h
  all_goals try exact Option.noConfusion h
  all_goals (injection h with h; subst h; rfl)

/-- The MFT entry walk only accumulates records with `is_partial = False`. -/
theorem ntfsEntryLoop_isPart (dev : List Nat) (bpc mftOffset : Nat) (dp : String)
    (md5Fn shaFn : List Nat → List Nat) :
    ∀ (fuel n : Nat) (acc : List MftRecord), (∀ r ∈ acc, r.isPart = false) →
      ∀ r ∈ ntfsEntryLoop dev bpc mftOffset dp md5Fn shaFn fuel n acc, r.isPart = false := by
  intro fuel
  induction fuel with
  | zero => intro n acc hacc r hr; exact hacc r hr
  | succ m ih =>
    intro n acc hacc r hr
    simp only [ntfsEntryLoop] at hr
    split at hr
    · exact hacc r hr
    · rcases hp : ntfsProcessEntry dev bpc mftOffset n dp md5Fn shaFn
          (readAt dev (mftOffset + n * 1024) 1024) with _ | rec
      · rw [hp] at hr
        exact ih (n + 1) acc hacc r hr
      · rw [hp] at hr
        refine ih (n + 1) (acc ++ [rec]) ?_ r hr
        intro q hq
        rcases List.mem_append.1 hq with h1 | h2
        · exact hacc q h1
        · have hq2 := List.mem_singleton.1 h2
          subst hq2
          exact ntfsProcessEntry_isPart dev bpc mftOffset n dp md5Fn shaFn _ _ hp

/-- C5 (amended): `is_partial` is identically `False` on NTFS metadata
records — the scan never emits a truncated record for any device; an
over-cap non-resident `DATA` attribute is skipped outright instead
(`c5_counterexample` exhibits this on a concrete device). -/
theorem c5_mft_cap_amended (dev : List Nat) (totalSize : Nat) (dp : String)
    (md5Fn shaFn : List Nat → List Nat) :
    ∀ r ∈ recoverNtfs dev totalSize dp md5Fn shaFn, r.isPart = false := by
  intro r hr
  simp only [recoverNtfs] at hr
  exact ntfsEntryLoop_isPart dev _ _ dp md5Fn shaFn _ 0 [] (by simp) r hr

/-- `c5_mft_cap_amended` at the concrete device `ntfsDev`, whose single
record `mftRecA` indeed carries `is_partial = False`. -/
theorem c5_witness : mftRecA.isPart = false :=
  c5_mft_cap_amended ntfsDev 1536 "D" (fun l => l) (fun l => l) mftRecA
    (by rw [recoverNtfs_ntfsDev_eq]; exact List.mem_singleton.2 rfl)

/-- `c10_cluster_empty_classification` at a concrete 600-byte all-zero
device sampled as one 4096-byte cluster, classified empty. -/
theorem c10_witness :
    clusterScan (List.replicate 600 0) 8192 = [⟨0, 0, true, List.replicate 256 0⟩] ∧
    readAt (List.replicate 600 0) (0 * 4096) 4096 ≠ [] :=
  ⟨by decide,
   ((c10_cluster_empty_classification (List.replicate 600 0) 8192).1
      ⟨0, 0, true, List.replicate 256 0⟩ (by decide)).1⟩

/-! ## C4 and C7: carver acceptance and MD5 deduplication -/

/-- Sum of the `size` fields of a carved-record list. -/
def sumSizes (l : List CarvedRecord) : Nat := (l.map (fun r => r.size)).sum

/-- The acceptance facts `_carve_files` checks before appending a record:
payload at least 4 KiB, validation passed, validation score at least 70,
and the record's stored score and size agreeing with the payload. -/
def carvedOkB (r : CarvedRecord) : Bool :=
  decide (4096 ≤ pyLen r.dataBytes) &&
  (validateFileWithScore r.dataBytes r.sig).is_valid &&
  decide (70 ≤ (validateFileWithScore r.dataBytes r.sig).score) &&
  decide (r.validationScore = (validateFileWithScore r.dataBytes r.sig).score) &&
  decide (r.size = pyLen r.dataBytes)

/-- Invariant of the carve state: accepted records carry pairwise distinct
MD5 values, each registered in `found_hashes`; every accepted record
passed the acceptance checks; and the accepted sizes are bounded by the
running total and, in write mode, by the cap. -/
def carveInv (deep : Bool) (cap : Nat) (st : CarveState) : Prop :=
  ((st.recoveredFiles.map (fun r => r.md5)).Pairwise (fun a b => a ≠ b)) ∧
  (∀ r ∈ st.recoveredFiles, r.md5 ∈ st.foundHashes) ∧
  (∀ r ∈ st.recoveredFiles, carvedOkB r = true) ∧
  sumSizes st.recoveredFiles ≤ st.totalRecoveredSize ∧
  (deep = false → sumSizes st.recoveredFiles ≤ cap)

/-- Cap-breach bookkeeping (hash and offset registered, no record
appended) preserves the carve invariant. -/
theorem carveInv_bump {deep : Bool} {cap : Nat} {st : CarveState}
    (h : carveInv deep cap st) {md5 : List Nat} (absolutePos k : Nat) :
    carveInv deep cap
      { st with fileCounter := st.fileCounter + 1,
                foundHashes := md5 :: st.foundHashes,
                foundOffsets := absolutePos :: st.foundOffsets,
                totalRecoveredSize := st.totalRecoveredSize + k } := by
  refine ⟨h.1, fun r hr => List.mem_cons_of_mem _ (h.2.1 r hr), h.2.2.1, ?_, h.2.2.2.2⟩
  exact le_trans h.2.2.2.1 (Nat.le_add_right _ _)

/-- Accepting a fresh candidate extends the carve invariant. -/
theorem carveInv_extend {deep : Bool} {cap : Nat} {st : CarveState}
    (h : carveInv deep cap st) {data md5 : List Nat}
    (hmd5 : md5 ∉ st.foundHashes) {sig : SigInfo} (absolutePos : Nat) (sha : List Nat)
    (h4096 : ¬ pyLen data < 4096)
    (hval : ¬ (validateFileWithScore data sig).is_valid = false)
    (hscore : ¬ (validateFileWithScore data sig).score < 70)
    (hcap : ¬ (deep = false ∧ cap < st.totalRecoveredSize + pyLen data)) :
    carveInv deep cap
      { st with fileCounter := st.fileCounter + 1,
                foundHashes := md5 :: st.foundHashes,
                foundOffsets := absolutePos :: st.foundOffsets,
                totalRecoveredSize := st.totalRecoveredSize + pyLen data,
                recoveredFiles := st.recoveredFiles ++
                  [mkCarvedRecord deep absolutePos data sig
                    (validateFileWithScore data sig).score
                    (validateFileWithScore data sig).isPart md5 sha] } := by
  obtain ⟨hpw, hmem, hok, hsum, hcapw⟩ := h
  have hsum2 : sumSizes (st.recoveredFiles ++
      [mkCarvedRecord deep absolutePos data sig (validateFileWithScore data sig).score
        (validateFileWithScore data sig).isPart md5 sha]) =
      sumSizes st.recoveredFiles + pyLen data := by
    simp [sumSizes, mkCarvedRecord]
  refine ⟨?_, ?_, ?_, ?_, ?_⟩
  · rw [List.map_append, List.pairwise_append]
    refine ⟨hpw, by simp, ?_⟩
    intro a ha b hb
    simp only [List.map_cons, List.map_nil, List.mem_cons, List.not_mem_nil, or_false] at hb
    subst hb
    rcases List.mem_map.1 ha with ⟨r, hr, rfl⟩
    intro hcontra
    exact hmd5 (hcontra ▸ hmem r hr)
  · intro r hr
    rcases List.mem_append.1 hr with h1 | h2
    · exact List.mem_cons_of_mem _ (hmem r h1)
    · have h3 := List.mem_singleton.1 h2
      subst h3
      exact List.mem_cons_self _ _
  · intro r hr
    rcases List.mem_append.1 hr with h1 | h2
    · exact hok r h1
    · have h3 := List.mem_singleton.1 h2
      subst h3
      simp only [carvedOkB, mkCarvedRecord, Bool.and_eq_true, decide_eq_true_eq]
      refine ⟨⟨⟨⟨by omega, ?_⟩, by omega⟩, trivial⟩, trivial⟩
      rcases Bool.eq_false_or_eq_true ((validateFileWithScore data sig).is_valid) with hvv | hvv
      · exact hvv
      · exact absurd hvv hval
  · rw [hsum2]
    exact Nat.add_le_add_right hsum _
  · intro hdeep
    rw [hsum2]
    have hc : st.totalRecoveredSize + pyLen data ≤ cap := by
      rcases Nat.lt_or_ge cap (st.totalRecoveredSize + pyLen data) with hlt | hge
      · exact absurd ⟨hdeep, hlt⟩ hcap
      · exact hge
    exact le_trans (Nat.add_le_add_right hsum _) hc

/-- The per-signature search loop preserves the carve invariant. -/
theorem innerLoop_inv (deep : Bool) (cap : Nat) (md5Fn shaFn : List Nat → List Nat)
    (sig : SigInfo) (header : List Nat) :
    ∀ (fuel searchStart : Nat) (st : CarveState), carveInv deep cap st →
      carveInv deep cap (innerLoop deep cap md5Fn shaFn sig header fuel searchStart st) := by
  intro fuel
  induction fuel with
  | zero => intro ss st h; exact h
  | succ m ih =>
    intro ss st h
    simp only [innerLoop]
    repeat' split
    all_goals first
      | exact h
      | exact ih _ _ h
      | exact carveInv_bump h _ _
      | exact ih _ _ (carveInv_extend h (by assumption) _ _ (by assumption) (by assumption)
          (by assumption) (by assumption))

/-- Rewriting the buffer window and offset leaves the carve invariant
untouched. -/
theorem carveInv_trim {deep : Bool} {cap : Nat} {s : CarveState}
    (h : carveInv deep cap s) (o : Nat) (b : List Nat) :
    carveInv deep cap { s with offset := o, buffer := b } :=
  ⟨h.1, h.2.1, h.2.2.1, h.2.2.2.1, h.2.2.2.2⟩

/-- Chunk processing preserves the carve invariant. -/
theorem processChunk_inv (deep : Bool) (cap : Nat) (md5Fn shaFn : List Nat → List Nat)
    (sigs : List SigInfo) (st : CarveState) (chunk : List Nat) (h : carveInv deep cap st) :
    carveInv deep cap (processChunk deep cap md5Fn shaFn sigs st chunk) := by
  have hfold : ∀ (l : List SigInfo) (s : CarveState), carveInv deep cap s →
      carveInv deep cap (l.foldl (sigStep deep cap md5Fn shaFn) s) := by
    intro l
    induction l with
    | nil => intro s hs; exact hs
    | cons a t ihl =>
      intro s hs
      simp only [List.foldl_cons]
      refine ihl _ ?_
      rcases ha : a.header with _ | hd
      · simp only [sigStep, ha]
        exact hs
      · simp only [sigStep, ha]
        exact innerLoop_inv deep cap md5Fn shaFn a hd _ _ s hs
  simp only [processChunk]
  split
  · exact @carveInv_trim deep cap
      (sigs.foldl (sigStep deep cap md5Fn shaFn)
        { st with buffer := st.buffer ++ chunk, chunksRead := st.chunksRead + 1 })
      (hfold sigs
        { st with buffer := st.buffer ++ chunk, chunksRead := st.chunksRead + 1 } h) _ _
  · exact hfold sigs
      { st with buffer := st.buffer ++ chunk, chunksRead := st.chunksRead + 1 } h

/-- The full carve pipeline establishes the invariant from the empty
state. -/
theorem carveFiles_inv (deep : Bool) (deviceSize : Nat) (md5Fn shaFn : List Nat → List Nat)
    (sigs : List SigInfo) (chunks : List (List Nat)) :
    carveInv deep (min (2 * deviceSize) 21474836480)
      (carveFiles deep deviceSize md5Fn shaFn sigs chunks) := by
  have hrun : ∀ (l : List (List Nat)) (s : CarveState),
      carveInv deep (min (2 * deviceSize) 21474836480) s →
      carveInv deep (min (2 * deviceSize) 21474836480)
        (l.foldl (processChunk deep (min (2 * deviceSize) 21474836480) md5Fn shaFn
          (sigs.filter (fun s => s.header.isSome))) s) := by
    intro l
    induction l with
    | nil => intro s hs; exact hs
    | cons c t ihl =>
      intro s hs
      exact ihl _ (processChunk_inv _ _ _ _ _ _ _ hs)
  exact hrun chunks {}
    ⟨List.Pairwise.nil, by simp, by simp, Nat.le_refl 0, fun _ => Nat.zero_le _⟩

/-- C4 (amended): within one carving run the emitted records carry
pairwise distinct MD5 values, enforced by the `found_hashes` set; the
metadata paths perform no such deduplication (`c4_counterexample`). -/
theorem c4_md5_dedup_amended (deep : Bool) (deviceSize : Nat)
    (md5Fn shaFn : List Nat → List Nat) (sigs : List SigInfo) (chunks : List (List Nat)) :
    ((carveFiles deep deviceSize md5Fn shaFn sigs chunks).recoveredFiles.map
        (fun r => r.md5)).Pairwise (fun a b => a ≠ b) :=
  (carveFiles_inv deep deviceSize md5Fn shaFn sigs chunks).1

/-- C7: every record emitted by the carver passed the acceptance checks —
payload at least 4 KiB, validation passed, score at least 70 — and its
stored score and size agree with the carved payload; a candidate failing
any check is never recorded. -/
theorem c7_carver_acceptance (deep : Bool) (deviceSize : Nat)
    (md5Fn shaFn : List Nat → List Nat) (sigs : List SigInfo) (chunks : List (List Nat)) :
    (carveFiles deep deviceSize md5Fn shaFn sigs chunks).recoveredFiles.all carvedOkB = true := by
  rw [List.all_eq_true]
  intro r hr
  exact (carveFiles_inv deep deviceSize md5Fn shaFn sigs chunks).2.2.1 r hr

/-- NTFS device with two identical deleted MFT entries, so both recovered
payloads (hence MD5 inputs) coincide. -/
def ntfsDevC : List Nat := bootN ++ entryA ++ entryA

/-- The spec's deduplication property over both pipeline families: carving
and NTFS metadata recovery alike emit pairwise distinct MD5 values. -/
def md5DedupClaim : Prop :=
  (∀ (deep : Bool) (deviceSize : Nat) (md5Fn shaFn : List Nat → List Nat)
      (sigs : List SigInfo) (chunks : List (List Nat)),
    ((carveFiles deep deviceSize md5Fn shaFn sigs chunks).recoveredFiles.map
        (fun r => r.md5)).Pairwise (fun a b => a ≠ b)) ∧
  (∀ (dev : List Nat) (totalSize : Nat) (dp : String) (md5Fn shaFn : List Nat → List Nat),
    ((recoverNtfs dev totalSize dp md5Fn shaFn).map
        (fun r => r.md5)).Pairwise (fun a b => a ≠ b))

set_option maxRecDepth 400000 in
set_option maxHeartbeats 4000000 in
/-- Concrete evaluation: the NTFS scan on `ntfsDevC` recovers the same
120-byte payload twice, once per duplicate MFT entry. -/
theorem recoverNtfs_ntfsDevC_md5 :
    (recoverNtfs ntfsDevC 2560 "D" (fun l => l) (fun l => l)).map (fun r => r.md5) =
      [List.replicate 120 66, List.replicate 120 66] := by rfl

/-- C4 (counterexample): the carver deduplicates by MD5, but the NTFS
metadata path does not: on `ntfsDevC` it emits two records with identical
MD5 values, refuting the across-the-board deduplication claim. -/
theorem c4_counterexample : ¬ md5DedupClaim := by
  intro h
  have h2 := h.2 ntfsDevC 2560 "D" (fun l => l) (fun l => l)
  rw [recoverNtfs_ntfsDevC_md5] at h2
  rcases List.pairwise_cons.1 h2 with ⟨hne, _⟩
  exact hne _ (List.mem_singleton.2 rfl) rfl

/-! ## C3: the carving safety cap -/

/-- The per-signature loop leaves the chunk counter untouched. -/
theorem innerLoop_chunksRead (deep : Bool) (cap : Nat) (mf sf : List Nat → List Nat)
    (sig : SigInfo) (hdr : List Nat) :
    ∀ (fuel ss : Nat) (st : CarveState),
      (innerLoop deep cap mf sf sig hdr fuel ss st).chunksRead = st.chunksRead := by
  intro fuel
  induction fuel with
  | zero => intro ss st; rfl
  | succ m ih =>
    intro ss st
    simp only [innerLoop]
    repeat' split
    all_goals first
      | rfl
      | exact ih _ _

/-- One signature step leaves the chunk counter untouched. -/
theorem sigStep_chunksRead (deep : Bool) (cap : Nat) (mf sf : List Nat → List Nat)
    (s : CarveState) (a : SigInfo) :
    (sigStep deep cap mf sf s a).chunksRead = s.chunksRead := by
  rcases ha : a.header with _ | hd
  · simp only [sigStep, ha]
  · simp only [sigStep, ha]
    exact innerLoop_chunksRead deep cap mf sf a hd _ _ s

/-- Each processed chunk increments the chunk counter by exactly one. -/
theorem processChunk_chunksRead (deep : Bool) (cap : Nat) (mf sf : List Nat → List Nat)
    (sigs : List SigInfo) (st : CarveState) (chunk : List Nat) :
    (processChunk deep cap mf sf sigs st chunk).chunksRead = st.chunksRead + 1 := by
  have hfold : ∀ (l : List SigInfo) (s : CarveState),
      (l.foldl (sigStep deep cap mf sf) s).chunksRead = s.chunksRead := by
    intro l
    induction l with
    | nil => intro s; rfl
    | cons a t ihl =>
      intro s
      simp only [List.foldl_cons]
      rw [ihl, sigStep_chunksRead]
  simp only [processChunk]
  split
  · exact hfold sigs { st with buffer := st.buffer ++ chunk, chunksRead := st.chunksRead + 1 }
  · exact hfold sigs { st with buffer := st.buffer ++ chunk, chunksRead := st.chunksRead + 1 }

/-- The carver reads every chunk of the stream: the final chunk count is the
number of chunks, regardless of any cap breach along the way. -/
theorem carve_chunksRead (deep : Bool) (deviceSize : Nat) (mf sf : List Nat → List Nat)
    (sigs : List SigInfo) (chunks : List (List Nat)) :
    (carveFiles deep deviceSize mf sf sigs chunks).chunksRead = chunks.length := by
  have h : ∀ (l : List (List Nat)) (s : CarveState),
      (l.foldl (processChunk deep (min (2 * deviceSize) 21474836480) mf sf
        (sigs.filter (fun s => s.header.isSome))) s).chunksRead = s.chunksRead + l.length := by
    intro l
    induction l with
    | nil => intro s; simp
    | cons c t ihl =>
      intro s
      simp only [List.foldl_cons, List.length_cons]
      rw [ihl, processChunk_chunksRead]
      omega
  simp only [carveFiles]
  simpa using h chunks {}

/-- In deep-scan mode the cap value never influences the signature loop. -/
theorem innerLoop_deep (cap cap2 : Nat) (mf sf : List Nat → List Nat) (sig : SigInfo)
    (hdr : List Nat) :
    ∀ (fuel ss : Nat) (st : CarveState),
      innerLoop true cap mf sf sig hdr fuel ss st =
        innerLoop true cap2 mf sf sig hdr fuel ss st := by
  intro fuel
  induction fuel with
  | zero => intro ss st; rfl
  | succ m ih =>
    intro ss st
    simp only [innerLoop, show ((true = false) = False) from by simp, false_and, if_false]
    repeat' split
    all_goals first
      | rfl
      | exact ih _ _

/-- In deep-scan mode the cap value never influences a signature step. -/
theorem sigStep_deep (cap cap2 : Nat) (mf sf : List Nat → List Nat)
    (s : CarveState) (a : SigInfo) :
    sigStep true cap mf sf s a = sigStep true cap2 mf sf s a := by
  rcases ha : a.header with _ | hd
  · simp only [sigStep, ha]
  · simp only [sigStep, ha]
    exact innerLoop_deep cap cap2 mf sf a hd _ _ s

/-- In deep-scan mode the cap value never influences chunk processing. -/
theorem processChunk_deep (cap cap2 : Nat) (mf sf : List Nat → List Nat)
    (sigs : List SigInfo) (st : CarveState) (chunk : List Nat) :
    processChunk true cap mf sf sigs st chunk = processChunk true cap2 mf sf sigs st chunk := by
  have hfold : ∀ (l : List SigInfo) (s : CarveState),
      l.foldl (sigStep true cap mf sf) s = l.foldl (sigStep true cap2 mf sf) s := by
    intro l
    induction l with
    | nil => intro s; rfl
    | cons a t ihl =>
      intro s
      simp only [List.foldl_cons]
      rw [sigStep_deep cap cap2 mf sf s a, ihl]
  simp only [processChunk]
  rw [hfold sigs { st with buffer := st.buffer ++ chunk, chunksRead := st.chunksRead + 1 }]

/-- In deep-scan mode the whole carve result is independent of the device
size the cap is derived from: no cap applies. -/
theorem carveFiles_deep (deviceSize deviceSize2 : Nat) (mf sf : List Nat → List Nat)
    (sigs : List SigInfo) (chunks : List (List Nat)) :
    carveFiles true deviceSize mf sf sigs chunks =
      carveFiles true deviceSize2 mf sf sigs chunks := by
  have h : ∀ (l : List (List Nat)) (s : CarveState),
      l.foldl (processChunk true (min (2 * deviceSize) 21474836480) mf sf
        (sigs.filter (fun s => s.header.isSome))) s =
      l.foldl (processChunk true (min (2 * deviceSize2) 21474836480) mf sf
        (sigs.filter (fun s => s.header.isSome))) s := by
    intro l
    induction l with
    | nil => intro s; rfl
    | cons c t ihl =>
      intro s
      simp only [List.foldl_cons]
      rw [processChunk_deep (min (2 * deviceSize) 21474836480) (min (2 * deviceSize2) 21474836480)
        mf sf (sigs.filter (fun s => s.header.isSome)) s c, ihl]
  simp only [carveFiles]
  exact h chunks {}

/-- The 20 leading bytes of a minimal WAV file: `RIFF`, a declared RIFF
size of 504, `WAVE`, `fmt ` and `data`. -/
def wavLit : List Nat :=
  [82, 73, 70, 70, 248, 1, 0, 0, 87, 65, 86, 69, 102, 109, 116, 32, 100, 97, 116, 97]

/-- A 50002-byte chunk holding one WAV candidate.  The buffer must exceed
50000 bytes for the search window `find(header, start, len(buffer) - 100000)`
to be nonempty after Python normalizes the negative end index. -/
def chunk1 : List Nat := wavLit ++ List.replicate 49982 1

/-- Length of `chunk1`. -/
theorem length_chunk1 : chunk1.length = 50002 := by
  rw [chunk1, List.length_append, List.length_replicate]
  rfl

/-- `pyLen` of `chunk1`. -/
theorem pyLen_chunk1 : pyLen chunk1 = 50002 := by
  rw [pyLen_eq, length_chunk1]

/-- The WAV header is found at offset 0 of `chunk1`: the negative search
end `50002 - 100000` normalizes to 4, which still covers the header. -/
theorem pyFind_chunk1 :
    pyFind chunk1 [82, 73, 70, 70] 0 ((pyLen chunk1 : Int) - 100000) = some 0 := by
  simp only [pyFind, pyLen_chunk1]
  rfl

/-- `chunk1` passes the strict WAV validation. -/
theorem validateFile_chunk1 : validateFile chunk1 wavSig = true := by
  simp only [validateFile, pyLen_chunk1]
  rfl

/-- `chunk1` scores 90: base 50, no footer defined (+30), WAV of at most
100000 bytes (+10). -/
theorem validateFileWithScore_chunk1 :
    validateFileWithScore chunk1 wavSig = ⟨true, 90, false⟩ := by
  simp only [validateFileWithScore, pyLen_chunk1, validateFile_chunk1]
  rfl

/-- WAV extraction from `chunk1` takes the whole buffer (5 MB cap is not
reached). -/
theorem extractFile_chunk1 : extractFile chunk1 0 wavSig = some chunk1 := by
  simp only [extractFile, pyLen_chunk1]
  show some (pySlice chunk1 0 (min (0 + 5242880) 50002)) = some chunk1
  rw [show min (0 + 5242880) 50002 = 50002 from by decide]
  simp only [pySlice, List.drop_zero, Nat.sub_zero]
  rw [List.take_of_length_le (le_of_eq length_chunk1)]

/-- One inner-loop iteration in write mode that accepts a candidate and
then breaches the cap: the dedup bookkeeping and the running total are
updated, but the record is not appended and the loop exits — this is the
`break` of the source, which leaves only the signature loop. -/
theorem innerLoop_cap_stop (cap : Nat) (mf sf : List Nat → List Nat) (sig : SigInfo)
    (hdr chk data : List Nat) (fuel ss pos : Nat) (st : CarveState) (sc : Int) (ip : Bool)
    (hfind : pyFind st.buffer hdr ss ((pyLen st.buffer : Int) - 100000) = some pos)
    (hoff : st.foundOffsets.any (fun fo => natDist (st.offset + pos) fo < 512) = false)
    (hsig : sig.sigOffset = 0)
    (hchk : sig.check = some chk)
    (hc : pyContains (pySlice st.buffer pos (pos + 1000)) chk = true)
    (hext : extractFile st.buffer pos sig = some data)
    (hlen : ¬ pyLen data < 4096)
    (hv : validateFileWithScore data sig = ⟨true, sc, ip⟩)
    (hsc : ¬ sc < 70)
    (hmd5 : mf data ∉ st.foundHashes)
    (hcap : cap < st.totalRecoveredSize + pyLen data) :
    innerLoop false cap mf sf sig hdr (fuel + 1) ss st =
      { st with fileCounter := st.fileCounter + 1,
                foundHashes := mf data :: st.foundHashes,
                foundOffsets := (st.offset + pos) :: st.foundOffsets,
                totalRecoveredSize := st.totalRecoveredSize + pyLen data } := by
  simp [innerLoop, hfind, hoff, hsig, hchk, hc, hext, hlen, hv, hsc, hmd5, hcap]

/-- Carve state after appending `chunk1` to the empty buffer. -/
def stA : CarveState :=
  { buffer := chunk1, offset := 0, fileCounter := 0, foundHashes := [], foundOffsets := [],
    skippedCorrupted := 0, totalRecoveredSize := 0, recoveredFiles := [], chunksRead := 1 }

/-- Carve state after the WAV candidate of `chunk1` breaches the zero cap:
total size 50002, dedup sets updated, no record emitted. -/
def stB : CarveState :=
  { buffer := chunk1, offset := 0, fileCounter := 1, foundHashes := [[]], foundOffsets := [0],
    skippedCorrupted := 0, totalRecoveredSize := 50002, recoveredFiles := [], chunksRead := 1 }

/-- The signature loop on `chunk1` under a zero cap: one accepted candidate
breaching the cap. -/
theorem innerLoop_chunk1 :
    innerLoop false 0 (fun _ => []) (fun _ => []) wavSig [82, 73, 70, 70] (50002 + 1) 0 stA =
      stB := by
  rw [innerLoop_cap_stop 0 (fun _ => []) (fun _ => []) wavSig [82, 73, 70, 70] [87, 65, 86, 69]
      chunk1 50002 0 0 stA 90 false pyFind_chunk1 (by rfl) (by rfl) (by rfl) (by rfl)
      extractFile_chunk1 (by rw [pyLen_chunk1]; decide) validateFileWithScore_chunk1 (by decide)
      (by simp [stA]) (by rw [pyLen_chunk1]; exact Nat.lt_of_lt_of_le (by decide) (Nat.le_add_left _ _))]
  rw [pyLen_chunk1]
  rfl

/-- Unfolding one signature step whose signature has a header. -/
theorem sigStep_some (deep : Bool) (cap : Nat) (mf sf : List Nat → List Nat) (s : CarveState)
    (sig : SigInfo) (hd : List Nat) (hh : sig.header = some hd) :
    sigStep deep cap mf sf s sig = innerLoop deep cap mf sf sig hd (pyLen s.buffer + 1) 0 s := by
  simp only [sigStep, hh]

/-- Chunk processing when the resulting buffer stays within the 100 KiB
overlap window. -/
theorem processChunk_small (deep : Bool) (cap : Nat) (mf sf : List Nat → List Nat)
    (sigs : List SigInfo) (st st1 st2 : CarveState) (chunk : List Nat)
    (hst1 : { st with buffer := st.buffer ++ chunk, chunksRead := st.chunksRead + 1 } = st1)
    (h2 : sigs.foldl (sigStep deep cap mf sf) st1 = st2)
    (hn : ¬ 100000 < pyLen st2.buffer) :
    processChunk deep cap mf sf sigs st chunk = st2 := by
  simp only [processChunk, hst1, h2]
  simp [hn]

/-- Concrete evaluation: carving `chunk1` in write mode with device size 0
(cap 0) accepts the WAV candidate, breaches the cap, and ends in `stB`. -/
theorem carve_chunk1_eq :
    carveFiles false 0 (fun _ => []) (fun _ => []) [wavSig] [chunk1] = stB := by
  simp only [carveFiles]
  rw [show (min (2 * 0) 21474836480 : Nat) = 0 from rfl,
    show List.filter (fun s => s.header.isSome) [wavSig] = [wavSig] from rfl,
    List.foldl_cons, List.foldl_nil]
  refine processChunk_small false 0 (fun _ => []) (fun _ => []) [wavSig] {} stA stB chunk1
      (by rfl) ?_ ?_
  · rw [List.foldl_cons, List.foldl_nil,
      sigStep_some false 0 (fun _ => []) (fun _ => []) stA wavSig [82, 73, 70, 70] rfl]
    have hb : stA.buffer = chunk1 := rfl
    rw [hb, pyLen_chunk1]
    exact innerLoop_chunk1
  · have hb : stB.buffer = chunk1 := rfl
    rw [hb, pyLen_chunk1]
    decide

/-- The spec's reading of the safety cap: once the running total of a
write-mode carve exceeds `min(2 * device_size, 20 GiB)`, the carver stops
entirely, so feeding further chunks changes nothing. -/
def carveStopClaim : Prop :=
  ∀ (deviceSize : Nat) (mf sf : List Nat → List Nat) (sigs : List SigInfo)
      (pre post : List (List Nat)),
    min (2 * deviceSize) 21474836480 <
        (carveFiles false deviceSize mf sf sigs pre).totalRecoveredSize →
    carveFiles false deviceSize mf sf sigs (pre ++ post) =
      carveFiles false deviceSize mf sf sigs pre

/-- C3 (counterexample): the cap `break` of the source only exits the
inner signature loop, not the chunk loop: after `chunk1` breaches the zero
cap of an empty device, a further chunk is still read and processed
(`chunks_read` grows), refuting the claim that the carver stops carving
entirely at the cap. -/
theorem c3_counterexample : ¬ carveStopClaim := by
  intro h
  have h1 := h 0 (fun _ => []) (fun _ => []) [wavSig] [chunk1] [[1]]
    (by rw [carve_chunk1_eq]; decide)
  have h2 := congrArg CarveState.chunksRead h1
  rw [carve_chunksRead, carve_chunksRead] at h2
  simp at h2

/-- C3 (amended): what is true of the cap: in write mode the cumulative
size of accepted records never exceeds `min(2 * device_size, 20 GiB)` and
after a breach no further record is ever accepted, but the carver keeps
reading every chunk of the device; in deep-scan mode the cap has no effect
at all. -/
theorem c3_cap_amended (deviceSize : Nat) (md5Fn shaFn : List Nat → List Nat)
    (sigs : List SigInfo) (chunks : List (List Nat)) :
    sumSizes (carveFiles false deviceSize md5Fn shaFn sigs chunks).recoveredFiles ≤
        min (2 * deviceSize) 21474836480 ∧
    (carveFiles false deviceSize md5Fn shaFn sigs chunks).chunksRead = chunks.length ∧
    (∀ deviceSize2, carveFiles true deviceSize md5Fn shaFn sigs chunks =
        carveFiles true deviceSize2 md5Fn shaFn sigs chunks) :=
  ⟨(carveFiles_inv false deviceSize md5Fn shaFn sigs chunks).2.2.2.2 rfl,
   carve_chunksRead false deviceSize md5Fn shaFn sigs chunks,
   fun d2 => carveFiles_deep deviceSize d2 md5Fn shaFn sigs chunks⟩
